import Mathlib

/-!
# cpu_input_boost: boost state machine and frequency-floor resolver

A shallow embedding of `drivers/cpufreq/cpu_input_boost.c`.

* `unsigned int` / `unsigned long` values are natural numbers; the only place
  where wrap-around matters is the jiffies arithmetic of the boost expiry and
  of the timers, which is taken modulo `2 ^ BITS_PER_LONG`.
* The module parameters (file-scope variables of the driver) are collected in
  `Params`; a function that reads them takes the record, the one function
  that writes one (`cpu_notifier_cb` normalising `enabled`) returns it.
* `struct boost_drv` becomes the record `boost_drv`; a delayed work item is its
  pending deadline (`none` when idle) and the wait queue is the count of
  `wake_up` calls issued on it.
* Every trigger takes the value of the `jiffies` counter it reads.  `kick()`
  reads it once (inside `mod_delayed_work`); `kick_max` reads it twice (line
  251 and inside `mod_delayed_work` at line 260) and so also takes the number
  of ticks between its two readings.  The triggers are run by one caller at a
  time, so the compare-and-exchange of `kick_max` succeeds on its first
  attempt; the loop of `kick_max` under concurrent callers is modelled on its
  own, as interleaved atomic steps (`caller_step`).
* Constants and helpers that come from kernel headers outside the driver
  (`NOTIFY_OK`, `CPUFREQ_ADJUST`, the msm_drm event codes, `msecs_to_jiffies`)
  are the fields of `Kernel`, over which every statement is universally
  quantified.
-/

namespace CpuInputBoost

/-! ## Host constants -/

/-- Values supplied by kernel headers that are not part of the driver. -/
structure Kernel where
  NOTIFY_OK : Nat
  CPUFREQ_ADJUST : Nat
  MSM_DRM_EARLY_EVENT_BLANK : Nat
  MSM_DRM_BLANK_UNBLANK : Int
  msecs_to_jiffies : Nat → Nat

/-- Width of `unsigned long` on the target (arm64). -/
def BITS_PER_LONG : Nat := 64

/-- Number of values of an `unsigned long`. -/
def ULONG_RANGE : Nat := 2 ^ BITS_PER_LONG

/-! ## Module parameters (lines 23-70) -/

/-- The file-scope tunables of the driver. -/
structure Params where
  enabled : Nat
  skip_prime_cores : Bool
  input_boost_duration : Nat
  wake_boost_duration : Nat
  input_boost_freq_lp : Nat
  input_boost_freq_hp : Nat
  input_boost_freq_prime : Nat
  max_boost_freq_lp : Nat
  max_boost_freq_hp : Nat
  max_boost_freq_prime : Nat
  min_freq_lp : Nat
  min_freq_hp : Nat
  min_freq_prime : Nat
  idle_freq_lp : Nat
  idle_freq_hp : Nat
  idle_freq_prime : Nat
  deriving DecidableEq, Repr

/-! ## Core-group masks (lines 72-80) -/

/-- Mask of cpu0-cpu3, 00001111. -/
def real_lp_cpu_bits : Nat := 15

/-- Mask of cpu4-cpu6, 01110000. -/
def real_perf_cpu_bits : Nat := 112

/-- Mask of cpu7, 10000000. -/
def real_prime_cpu_bits : Nat := 128

/-- The kernel helper `cpumask_test_cpu(cpu, mask)`: bit `cpu` of the mask. -/
def cpumask_test_cpu (cpu : Nat) (mask : Nat) : Bool := mask.testBit cpu

/-! ## Flag bits (lines 82-86) and bit operations -/

def SCREEN_OFF : Nat := 0
def INPUT_BOOST : Nat := 1
def MAX_BOOST : Nat := 2

/-- The kernel helper `test_bit(nr, addr)`. -/
def test_bit (nr : Nat) (word : Nat) : Bool := word.testBit nr

/-- The kernel helper `set_bit(nr, addr)`: `*addr |= 1UL << nr`. -/
def set_bit (nr : Nat) (word : Nat) : Nat := word ||| (1 <<< nr)

/-- The kernel helper `clear_bit(nr, addr)`: `*addr &= ~(1UL << nr)`, the
complement being taken in an `unsigned long`. -/
def clear_bit (nr : Nat) (word : Nat) : Nat :=
  word &&& ((ULONG_RANGE - 1) ^^^ (1 <<< nr))

/-! ## Policy and driver state -/

/-- The fields of `struct cpufreq_cpuinfo` the driver reads. -/
structure cpufreq_cpuinfo where
  min_freq : Nat
  max_freq : Nat
  deriving DecidableEq, Repr

/-- The fields of `struct cpufreq_policy` the driver reads or writes. -/
structure cpufreq_policy where
  cpu : Nat
  min : Nat
  max : Nat
  cpuinfo : cpufreq_cpuinfo
  deriving DecidableEq, Repr

/-- The record `struct boost_drv` (lines 88-96).  A delayed work is `none`
when idle and `some t` when pending with timer expiry `t`; `boost_waitq`
counts the `wake_up` calls issued on the wait queue.  The two notifier blocks
carry no data of their own. -/
structure boost_drv where
  input_unboost : Option Nat
  max_unboost : Option Nat
  boost_waitq : Nat
  max_boost_expires : Nat
  state : Nat
  deriving DecidableEq, Repr

/-! ## Frequency policy resolver (lines 109-196) -/

/-- Lines 109-128. -/
def get_input_boost_freq (p : Params) (policy : cpufreq_policy) : Nat :=
  let freq :=
    if cpumask_test_cpu policy.cpu real_lp_cpu_bits then
      max p.input_boost_freq_lp p.min_freq_lp
    else if cpumask_test_cpu policy.cpu real_perf_cpu_bits then
      max p.input_boost_freq_hp p.min_freq_hp
    else
      let freq := max p.input_boost_freq_prime p.min_freq_prime
      if p.skip_prime_cores then policy.cpuinfo.min_freq else freq
  let freq := if freq = 0 then policy.min else freq
  min freq policy.max

/-- Lines 130-158. -/
def get_max_boost_freq (p : Params) (policy : cpufreq_policy) : Nat :=
  let freq :=
    if cpumask_test_cpu policy.cpu real_lp_cpu_bits then
      let freq := p.max_boost_freq_lp
      if freq = 0 then p.input_boost_freq_lp else freq
    else if cpumask_test_cpu policy.cpu real_perf_cpu_bits then
      let freq := p.max_boost_freq_hp
      if freq = 0 then p.input_boost_freq_hp else freq
    else
      let freq := p.max_boost_freq_prime
      let freq := if freq = 0 then p.input_boost_freq_prime else freq
      if p.skip_prime_cores then policy.cpuinfo.min_freq else freq
  let freq := if freq = 0 then policy.cpuinfo.max_freq else freq
  min freq policy.max

/-- Lines 160-176. -/
def get_min_freq (p : Params) (policy : cpufreq_policy) : Nat :=
  let freq :=
    if cpumask_test_cpu policy.cpu real_lp_cpu_bits then
      p.min_freq_lp
    else if cpumask_test_cpu policy.cpu real_perf_cpu_bits then
      p.min_freq_hp
    else
      let freq := p.min_freq_prime
      if p.skip_prime_cores then policy.cpuinfo.min_freq else freq
  max freq policy.cpuinfo.min_freq

/-- Lines 178-196. -/
def get_idle_freq (p : Params) (policy : cpufreq_policy) : Nat :=
  let freq :=
    if cpumask_test_cpu policy.cpu real_lp_cpu_bits then
      p.idle_freq_lp
    else if cpumask_test_cpu policy.cpu real_perf_cpu_bits then
      p.idle_freq_hp
    else
      let freq := p.idle_freq_prime
      if p.skip_prime_cores then policy.cpuinfo.min_freq else freq
  let freq := if freq = 0 then policy.cpuinfo.min_freq else freq
  min freq policy.cpuinfo.min_freq

/-! ## Frequency-policy callback (lines 318-360) -/

/-- What `cpu_notifier_cb` leaves behind: the module parameters (it may
normalise `enabled`), the policy it was handed and its return value. -/
structure NotifierResult where
  params : Params
  policy : cpufreq_policy
  ret : Nat
  deriving DecidableEq, Repr

/-- Lines 318-360.  `enabled` is unsigned, so the test `enabled < 0` of line
332 is the comparison of a natural number with zero. -/
def cpu_notifier_cb (k : Kernel) (p : Params) (b : boost_drv) (action : Nat)
    (policy : cpufreq_policy) : NotifierResult :=
  if p.enabled = 0 then
    ⟨p, { policy with min := policy.cpuinfo.min_freq }, k.NOTIFY_OK⟩
  else
    let p :=
      if p.enabled > 1 then { p with enabled := 1 }
      else if p.enabled < 0 then { p with enabled := 0 }
      else p
    if action ≠ k.CPUFREQ_ADJUST then
      ⟨p, policy, k.NOTIFY_OK⟩
    else if test_bit SCREEN_OFF b.state then
      ⟨p, { policy with min := get_idle_freq p policy }, k.NOTIFY_OK⟩
    else if test_bit MAX_BOOST b.state then
      ⟨p, { policy with min := get_max_boost_freq p policy }, k.NOTIFY_OK⟩
    else if test_bit INPUT_BOOST b.state then
      ⟨p, { policy with min := get_input_boost_freq p policy }, k.NOTIFY_OK⟩
    else
      ⟨p, { policy with min := get_min_freq p policy }, k.NOTIFY_OK⟩

/-! ## Spec-side vocabulary: core groups and per-group settings -/

/-- The three core groups the spec speaks of. -/
inductive CoreGroup where
  | LowPower
  | Performance
  | Prime
  deriving DecidableEq, Repr

/-- Classification of a CPU index by the masks, in the order every resolver
function tests them. -/
def core_group (cpu : Nat) : CoreGroup :=
  if cpumask_test_cpu cpu real_lp_cpu_bits then CoreGroup.LowPower
  else if cpumask_test_cpu cpu real_perf_cpu_bits then CoreGroup.Performance
  else CoreGroup.Prime

/-- The configured input-boost frequency of a group. -/
def Params.input_boost_freq (p : Params) : CoreGroup → Nat
  | CoreGroup.LowPower => p.input_boost_freq_lp
  | CoreGroup.Performance => p.input_boost_freq_hp
  | CoreGroup.Prime => p.input_boost_freq_prime

/-- The configured max-boost frequency of a group. -/
def Params.max_boost_freq (p : Params) : CoreGroup → Nat
  | CoreGroup.LowPower => p.max_boost_freq_lp
  | CoreGroup.Performance => p.max_boost_freq_hp
  | CoreGroup.Prime => p.max_boost_freq_prime

/-- The configured absolute minimum frequency of a group. -/
def Params.min_freq (p : Params) : CoreGroup → Nat
  | CoreGroup.LowPower => p.min_freq_lp
  | CoreGroup.Performance => p.min_freq_hp
  | CoreGroup.Prime => p.min_freq_prime

/-- The configured idle frequency of a group. -/
def Params.idle_freq (p : Params) : CoreGroup → Nat
  | CoreGroup.LowPower => p.idle_freq_lp
  | CoreGroup.Performance => p.idle_freq_hp
  | CoreGroup.Prime => p.idle_freq_prime

/-- The floor the frequency-policy callback writes on an ADJUST action. -/
def resolved_floor (k : Kernel) (p : Params) (b : boost_drv)
    (policy : cpufreq_policy) : Nat :=
  (cpu_notifier_cb k p b k.CPUFREQ_ADJUST policy).policy.min

/-- A setting that is either unset (zero) or at least `lo`. -/
def UnsetOrAtLeast (lo f : Nat) : Prop := f = 0 ∨ lo ≤ f

instance (lo f : Nat) : Decidable (UnsetOrAtLeast lo f) := by
  unfold UnsetOrAtLeast; infer_instance

/-- The resolver reads the group's settings for this CPU: every case but a
prime CPU under `skip_prime_cores`, where each function substitutes the
hardware minimum. -/
def reads_group_settings (p : Params) (policy : cpufreq_policy) : Prop :=
  ¬ (core_group policy.cpu = CoreGroup.Prime ∧ p.skip_prime_cores = true)

instance (p : Params) (policy : cpufreq_policy) : Decidable (reads_group_settings p policy) := by
  unfold reads_group_settings; infer_instance

/-- The value the max-boost branch takes from the settings of a group: the
max-boost frequency, or the input-boost frequency when that is unset. -/
def max_boost_setting (p : Params) (g : CoreGroup) : Nat :=
  if p.max_boost_freq g ≠ 0 then p.max_boost_freq g else p.input_boost_freq g

/-- The value the input-boost branch takes from the settings of a group: the
larger of the input-boost and the minimum frequency. -/
def input_boost_setting (p : Params) (g : CoreGroup) : Nat :=
  max (p.input_boost_freq g) (p.min_freq g)

/-- The settings the four branches read for this CPU fit the hardware range:
the idle frequency, the max-boost value and the input-boost value are each
unset (zero) or at least the hardware minimum, `policy->min` is at least the
hardware minimum when the input-boost value is unset, and the minimum
frequency is at most the hardware maximum. -/
def settings_fit_hardware (p : Params) (policy : cpufreq_policy) : Prop :=
  UnsetOrAtLeast policy.cpuinfo.min_freq (p.idle_freq (core_group policy.cpu)) ∧
  UnsetOrAtLeast policy.cpuinfo.min_freq (max_boost_setting p (core_group policy.cpu)) ∧
  UnsetOrAtLeast policy.cpuinfo.min_freq (input_boost_setting p (core_group policy.cpu)) ∧
  (input_boost_setting p (core_group policy.cpu) = 0 →
    policy.cpuinfo.min_freq ≤ policy.min) ∧
  p.min_freq (core_group policy.cpu) ≤ policy.cpuinfo.max_freq

instance (p : Params) (policy : cpufreq_policy) : Decidable (settings_fit_hardware p policy) := by
  unfold settings_fit_hardware; infer_instance

/-! ## Boost state and triggers (lines 216-288, 362-386) -/

/-- The kernel macro `time_after(a, b)`: `(long)(b - a) < 0` on
`unsigned long` operands. -/
def time_after (a b : Nat) : Bool :=
  decide (ULONG_RANGE / 2 ≤ (b % ULONG_RANGE + (ULONG_RANGE - a % ULONG_RANGE)) % ULONG_RANGE)

/-- The kernel helper `wake_up(&b->boost_waitq)`. -/
def wake_up (b : boost_drv) : boost_drv :=
  { b with boost_waitq := b.boost_waitq + 1 }

/-- The kernel helper `mod_delayed_work(wq, dwork, delay)`: the timer of the
work is set to expire at `jiffies + delay`; the result tells whether the work
was pending already. -/
def mod_delayed_work (dwork : Option Nat) (jiffies delay : Nat) : Bool × Option Nat :=
  (dwork.isSome, some ((jiffies + delay) % ULONG_RANGE))

/-- The kernel helper `atomic_long_cmpxchg(v, old, new)`: the value read and
the value left in `v`. -/
def atomic_long_cmpxchg (v old new : Nat) : Nat × Nat :=
  (v, if v = old then new else v)

/-- Lines 216-228, called at time `jiffies`. -/
def __cpu_input_boost_kick (k : Kernel) (p : Params) (jiffies : Nat)
    (b : boost_drv) : boost_drv :=
  if p.enabled = 0 then b
  else if test_bit SCREEN_OFF b.state || decide (p.input_boost_duration = 0) then b
  else
    let b := { b with state := set_bit INPUT_BOOST b.state }
    let r := mod_delayed_work b.input_unboost jiffies
      (k.msecs_to_jiffies p.input_boost_duration)
    let b := { b with input_unboost := r.2 }
    if !r.1 then wake_up b else b

/-- Lines 237-263, run by a single caller with no concurrent writer of
`max_boost_expires`: the compare-and-exchange of line 256 then reads the value
line 250 read, so the loop body runs once.  The code reads the jiffies counter
twice: `jiffies` is the value read at line 251, and `ticks` is how far the
counter has advanced when `mod_delayed_work` (line 260) reads it again to set
the timer. -/
def __cpu_input_boost_kick_max (k : Kernel) (p : Params) (jiffies ticks : Nat)
    (b : boost_drv) (duration_ms : Nat) : boost_drv :=
  let boost_jiffies := k.msecs_to_jiffies duration_ms
  if p.enabled = 0 then b
  else if test_bit SCREEN_OFF b.state then b
  else
    let curr_expires := b.max_boost_expires
    let new_expires := (jiffies + boost_jiffies) % ULONG_RANGE
    if time_after curr_expires new_expires then b
    else
      let x := atomic_long_cmpxchg b.max_boost_expires curr_expires new_expires
      let b := { b with max_boost_expires := x.2 }
      let b := { b with state := set_bit MAX_BOOST b.state }
      let r := mod_delayed_work b.max_unboost (jiffies + ticks) boost_jiffies
      let b := { b with max_unboost := r.2 }
      if !r.1 then wake_up b else b

/-- Lines 272-279. -/
def input_unboost_worker (b : boost_drv) : boost_drv :=
  wake_up { b with state := clear_bit INPUT_BOOST b.state }

/-- Lines 281-288. -/
def max_unboost_worker (b : boost_drv) : boost_drv :=
  wake_up { b with state := clear_bit MAX_BOOST b.state }

/-- Lines 362-386; `blank` is the `int` value `*evdata->data`, `jiffies` and
`ticks` are the two counter readings of the `kick_max` of line 379. -/
def msm_drm_notifier_cb (k : Kernel) (p : Params) (jiffies ticks : Nat)
    (b : boost_drv) (action : Nat) (blank : Int) : boost_drv × Nat :=
  if p.enabled = 0 then (b, k.NOTIFY_OK)
  else if action ≠ k.MSM_DRM_EARLY_EVENT_BLANK then (b, k.NOTIFY_OK)
  else if blank = k.MSM_DRM_BLANK_UNBLANK then
    let b := { b with state := clear_bit SCREEN_OFF b.state }
    (__cpu_input_boost_kick_max k p jiffies ticks b p.wake_boost_duration, k.NOTIFY_OK)
  else
    let b := { b with state := set_bit SCREEN_OFF b.state }
    (wake_up b, k.NOTIFY_OK)

/-- The static initialiser of `boost_drv_g` (lines 101-107). -/
def boost_drv_g : boost_drv :=
  { input_unboost := none, max_unboost := none, boost_waitq := 0,
    max_boost_expires := 0, state := 0 }

/-- A kernel with `HZ = 1000` (one jiffy per millisecond) and the event codes
of `linux/notifier.h`, `linux/cpufreq.h` and `linux/msm_drm_notify.h`. -/
def kernel_hz1000 : Kernel :=
  { NOTIFY_OK := 1, CPUFREQ_ADJUST := 0, MSM_DRM_EARLY_EVENT_BLANK := 2,
    MSM_DRM_BLANK_UNBLANK := 0, msecs_to_jiffies := fun m => m }

/-- A configuration with every frequency unset, used as the base of the
concrete examples. -/
def params_unset : Params :=
  { enabled := 1, skip_prime_cores := false, input_boost_duration := 64,
    wake_boost_duration := 1000,
    input_boost_freq_lp := 0, input_boost_freq_hp := 0, input_boost_freq_prime := 0,
    max_boost_freq_lp := 0, max_boost_freq_hp := 0, max_boost_freq_prime := 0,
    min_freq_lp := 0, min_freq_hp := 0, min_freq_prime := 0,
    idle_freq_lp := 0, idle_freq_hp := 0, idle_freq_prime := 0 }

/-! ## Concrete inputs used by the examples below -/

/-- A performance-cluster policy: cpu4, hardware range 300..2000 MHz. -/
def policy_perf : cpufreq_policy :=
  { cpu := 4, min := 300, max := 2000, cpuinfo := { min_freq := 300, max_freq := 2000 } }

/-- The same performance-cluster policy with its maximum lowered to 1000 MHz. -/
def policy_perf_capped : cpufreq_policy :=
  { cpu := 4, min := 300, max := 1000, cpuinfo := { min_freq := 300, max_freq := 2000 } }

/-- A prime-core policy whose hardware minimum is zero. -/
def policy_prime_zero : cpufreq_policy :=
  { cpu := 7, min := 0, max := 2000, cpuinfo := { min_freq := 0, max_freq := 2000 } }

/-- A prime-core policy: cpu7, hardware range 300..2000 MHz. -/
def policy_prime : cpufreq_policy :=
  { cpu := 7, min := 300, max := 2000, cpuinfo := { min_freq := 300, max_freq := 2000 } }

/-- Driver state with exactly the given flags word, timers idle. -/
def drv_with_flags (flags : Nat) : boost_drv :=
  { boost_drv_g with state := flags }

/-- Performance input-boost frequency set below the hardware minimum. -/
def params_low_input : Params :=
  { params_unset with input_boost_freq_hp := 200 }

/-- Performance absolute minimum of 2500 MHz, above the hardware maximum. -/
def params_min_2500 : Params :=
  { params_unset with min_freq_hp := 2500 }

/-- A performance-cluster policy whose current minimum, 100 MHz, is below the
hardware minimum of 300 MHz. -/
def policy_perf_low_min : cpufreq_policy :=
  { cpu := 4, min := 100, max := 2000, cpuinfo := { min_freq := 300, max_freq := 2000 } }

/-- Performance absolute minimum of 1200 MHz. -/
def params_min_1200 : Params :=
  { params_unset with min_freq_hp := 1200 }

/-- Performance idle frequency of 500 MHz. -/
def params_idle_500 : Params :=
  { params_unset with idle_freq_hp := 500 }

/-- Prime cores skipped, prime frequencies configured. -/
def params_skip_prime : Params :=
  { params_unset with skip_prime_cores := true, input_boost_freq_prime := 1500,
                      max_boost_freq_prime := 1800, min_freq_prime := 600,
                      idle_freq_prime := 400 }

/-- The spec's end-to-end configuration: performance input boost 1200 MHz,
absolute minimum 400 MHz. -/
def params_scenario : Params :=
  { params_unset with input_boost_freq_hp := 1200, min_freq_hp := 400 }

/-! ## Sequential series of `kick_max` calls -/

/-- The candidate expiry `jiffies + boost_jiffies` of line 251. -/
def candidate_expiry (k : Kernel) (jiffies duration_ms : Nat) : Nat :=
  (jiffies + k.msecs_to_jiffies duration_ms) % ULONG_RANGE

/-- Two counter values less than half the counter range apart: the domain on
which `time_after` orders them like the integers. -/
def within_half_range (a c : Nat) : Prop :=
  a < c + ULONG_RANGE / 2 ∧ c < a + ULONG_RANGE / 2

instance (a c : Nat) : Decidable (within_half_range a c) := by
  unfold within_half_range; infer_instance

/-- The stored expiry after each call of a series of `kick_max` calls made one
after the other; a call is the triple of its time (the jiffies value of
line 251), the ticks elapsed until the timer is set, and its duration. -/
def kick_max_trace (k : Kernel) (p : Params) (b : boost_drv) :
    List (Nat × Nat × Nat) → List Nat
  | [] => []
  | c :: rest =>
    (__cpu_input_boost_kick_max k p c.1 c.2.1 b c.2.2).max_boost_expires ::
      kick_max_trace k p (__cpu_input_boost_kick_max k p c.1 c.2.1 b c.2.2) rest

/-- Every call of the series finds its candidate within half the counter
range of the expiry stored when it is made. -/
def series_within_half_range (k : Kernel) (p : Params) (b : boost_drv) :
    List (Nat × Nat × Nat) → Prop
  | [] => True
  | c :: rest =>
    within_half_range b.max_boost_expires (candidate_expiry k c.1 c.2.2) ∧
      series_within_half_range k p (__cpu_input_boost_kick_max k p c.1 c.2.1 b c.2.2) rest

/-! ## Display events replayed from the initial state -/

/-- The value `MSM_DRM_BLANK_POWERDOWN` of `linux/msm_drm_notify.h`. -/
def MSM_DRM_BLANK_POWERDOWN : Int := 1

/-- Unblank at jiffy 0 from the initial state: the wake boost is armed. -/
def drv_after_unblank : boost_drv :=
  (msm_drm_notifier_cb kernel_hz1000 params_unset 0 0 boost_drv_g 2 0).1

/-- Then blank at jiffy 10, inside the wake-boost window. -/
def drv_after_blank : boost_drv :=
  (msm_drm_notifier_cb kernel_hz1000 params_unset 10 0 drv_after_unblank 2
    MSM_DRM_BLANK_POWERDOWN).1

/-- Then unblank again at jiffy 20, still inside the wake-boost window. -/
def drv_after_second_unblank : boost_drv :=
  (msm_drm_notifier_cb kernel_hz1000 params_unset 20 0 drv_after_blank 2 0).1

/-! ## Timed runs: the workqueue firing the delayed works

Time is the jiffies counter.  A pending delayed work runs when the clock
reaches its timer expiry; the workqueue marks it idle and calls its worker. -/

/-- What the workqueue does when the timer of `input_unboost` expires: the
work stops being pending and `input_unboost_worker` runs. -/
def fire_input_unboost (b : boost_drv) : boost_drv :=
  input_unboost_worker { b with input_unboost := none }

/-- What the workqueue does when the timer of `max_unboost` expires: the work
stops being pending and `max_unboost_worker` runs. -/
def fire_max_unboost (b : boost_drv) : boost_drv :=
  max_unboost_worker { b with max_unboost := none }

/-- A driver state together with the record of the times at which each
unboost worker has run. -/
structure Timeline where
  drv : boost_drv
  input_fires : List Nat
  max_fires : List Nat
  deriving DecidableEq, Repr

/-- The clock reaches `t`: the input-unboost work has run at its expiry if
that expiry is at most `t`. -/
def run_input_timer (t : Nat) (s : Timeline) : Timeline :=
  match s.drv.input_unboost with
  | some d =>
    if d ≤ t then
      { s with drv := fire_input_unboost s.drv, input_fires := s.input_fires ++ [d] }
    else s
  | none => s

/-- The clock reaches `t`: the max-unboost work has run at its expiry if that
expiry is at most `t`. -/
def run_max_timer (t : Nat) (s : Timeline) : Timeline :=
  match s.drv.max_unboost with
  | some d =>
    if d ≤ t then
      { s with drv := fire_max_unboost s.drv, max_fires := s.max_fires ++ [d] }
    else s
  | none => s

/-- The clock reaches `t`: every delayed work due by then has run. -/
def run_timers (t : Nat) (s : Timeline) : Timeline :=
  run_max_timer t (run_input_timer t s)

/-- A call of `kick()` at time `t`, after the works due by then have run. -/
def kick_at (k : Kernel) (p : Params) (t : Nat) (s : Timeline) : Timeline :=
  { run_timers t s with drv := __cpu_input_boost_kick k p t (run_timers t s).drv }

/-- Calls of `kick()` at the listed times, in order. -/
def kicks_then (k : Kernel) (p : Params) (s : Timeline) : List Nat → Timeline
  | [] => s
  | t :: ts => kicks_then k p (kick_at k p t s) ts

/-- The timeline as observed at time `t` when `kick()` is called at the
listed (increasing) times: the calls made up to `t` have happened and the
works due by `t` have run. -/
def observe_at (k : Kernel) (p : Params) (s : Timeline) (kicks : List Nat) (t : Nat) :
    Timeline :=
  run_timers t (kicks_then k p s (kicks.filter (fun x => decide (x ≤ t))))

/-- The last element of the non-empty list `t :: ts`. -/
def last_kick : Nat → List Nat → Nat
  | t, [] => t
  | _, t :: ts => last_kick t ts

/-- Consecutive calls: the next one comes later, and less than `gap` later. -/
def closer_than (gap : Nat) (a c : Nat) : Prop := a < c ∧ c < a + gap

/-- The input boost is armed: the input-unboost work is pending with expiry
`d`, InputBoost is set, ScreenOff is clear and the worker has not run. -/
def armed_until (d : Nat) (s : Timeline) : Prop :=
  s.drv.input_unboost = some d ∧ test_bit INPUT_BOOST s.drv.state = true ∧
    test_bit SCREEN_OFF s.drv.state = false ∧ s.input_fires = []

/-- No input-unboost run is due by `t`, none has happened, ScreenOff is clear. -/
def quiet_at (t : Nat) (s : Timeline) : Prop :=
  (∀ d, s.drv.input_unboost = some d → t < d) ∧
    test_bit SCREEN_OFF s.drv.state = false ∧ s.input_fires = []

/-- Kicks at jiffies 100, 130 and 150 used in the debounce example. -/
def burst_rest : List Nat := [130, 150]

/-! ## Start-up (lines 476-520)

The three registration calls and the thread creation belong to the host.
Each is given the outcome the host reports; a registration call that reports
success leaves the object registered, one that reports failure leaves the
registrations as they were. -/

/-- What the driver holds at the host: the three registrations and the
responder thread. -/
structure Registrations where
  cpu_notif : Bool
  input_handler : Bool
  msm_drm_notif : Bool
  cpu_boostd : Bool
  deriving DecidableEq, Repr

/-- What the host reports for the four start-up calls: three `int` return
codes and the pointer returned by `kthread_run_perf_critical`, as an
`unsigned long`. -/
structure InitOutcomes where
  cpufreq_register_notifier : Int
  input_register_handler : Int
  msm_drm_register_client : Int
  kthread_run_perf_critical : Nat
  deriving DecidableEq, Repr

/-- The kernel constant `MAX_ERRNO` of `linux/err.h`. -/
def MAX_ERRNO : Nat := 4095

/-- The kernel helper `IS_ERR(ptr)`:
`(unsigned long)ptr >= (unsigned long)-MAX_ERRNO`. -/
def IS_ERR (ptr : Nat) : Bool := decide (ULONG_RANGE - MAX_ERRNO ≤ ptr)

/-- The kernel helper `PTR_ERR(ptr)`: the pointer read as a `long`. -/
def PTR_ERR (ptr : Nat) : Int :=
  if ptr % ULONG_RANGE < ULONG_RANGE / 2 then (ptr % ULONG_RANGE : Nat)
  else ((ptr % ULONG_RANGE : Nat) : Int) - (ULONG_RANGE : Nat)

/-- Conversion of a `long` to the 32-bit `int` variable `ret`. -/
def long_to_int (x : Int) : Int := (x + 2 ^ 31) % 2 ^ 32 - 2 ^ 31

/-- Host call `cpufreq_register_notifier` reporting `outcome`. -/
def cpufreq_register_notifier (outcome : Int) (r : Registrations) : Int × Registrations :=
  (outcome, if outcome = 0 then { r with cpu_notif := true } else r)

/-- Host call `input_register_handler` reporting `outcome`. -/
def input_register_handler (outcome : Int) (r : Registrations) : Int × Registrations :=
  (outcome, if outcome = 0 then { r with input_handler := true } else r)

/-- Host call `msm_drm_register_client` reporting `outcome`. -/
def msm_drm_register_client (outcome : Int) (r : Registrations) : Int × Registrations :=
  (outcome, if outcome = 0 then { r with msm_drm_notif := true } else r)

/-- Host call `kthread_run_perf_critical` returning the pointer `thread`; the
thread runs unless the pointer is an error value. -/
def kthread_run_perf_critical (thread : Nat) (r : Registrations) : Nat × Registrations :=
  (thread, if IS_ERR thread then r else { r with cpu_boostd := true })

/-- Host call `cpufreq_unregister_notifier`. -/
def cpufreq_unregister_notifier (r : Registrations) : Registrations :=
  { r with cpu_notif := false }

/-- Host call `input_unregister_handler`. -/
def input_unregister_handler (r : Registrations) : Registrations :=
  { r with input_handler := false }

/-- Host call `msm_drm_unregister_client`. -/
def msm_drm_unregister_client (r : Registrations) : Registrations :=
  { r with msm_drm_notif := false }

/-- The code from label `unregister_cpu_notif` (lines 517-519). -/
def unregister_cpu_notif (ret : Int) (r : Registrations) : Int × Registrations :=
  (ret, cpufreq_unregister_notifier r)

/-- The code from label `unregister_handler` (lines 515-519). -/
def unregister_handler (ret : Int) (r : Registrations) : Int × Registrations :=
  unregister_cpu_notif ret (input_unregister_handler r)

/-- The code from label `unregister_fb_notif` (lines 513-519). -/
def unregister_fb_notif (ret : Int) (r : Registrations) : Int × Registrations :=
  unregister_handler ret (msm_drm_unregister_client r)

/-- Lines 476-520: the return value and what is left registered. -/
def cpu_input_boost_init (o : InitOutcomes) (r : Registrations) : Int × Registrations :=
  let x := cpufreq_register_notifier o.cpufreq_register_notifier r
  if x.1 ≠ 0 then (x.1, x.2)
  else
    let y := input_register_handler o.input_register_handler x.2
    if y.1 ≠ 0 then unregister_cpu_notif y.1 y.2
    else
      let z := msm_drm_register_client o.msm_drm_register_client y.2
      if z.1 ≠ 0 then unregister_handler z.1 z.2
      else
        let t := kthread_run_perf_critical o.kthread_run_perf_critical z.2
        if IS_ERR t.1 then unregister_fb_notif (long_to_int (PTR_ERR t.1)) t.2
        else (0, t.2)

/-- Nothing registered, no thread: the state before start-up. -/
def nothing_registered : Registrations :=
  { cpu_notif := false, input_handler := false, msm_drm_notif := false, cpu_boostd := false }

/-- The pointer value `ERR_PTR(-ENOMEM)` on a 64-bit target. -/
def err_ptr_enomem : Nat := ULONG_RANGE - 12

/-! ## Sequential step model of the coordinator

One operation at a time: a trigger called with the module parameters and the
jiffies value of that moment, or a pending delayed work reaching its expiry. -/

/-- The operations that change the driver state. -/
inductive Event where
  | kick (p : Params) (jiffies : Nat)
  | kick_max (p : Params) (jiffies ticks : Nat) (duration_ms : Nat)
  | display (p : Params) (jiffies ticks : Nat) (action : Nat) (blank : Int)
  | input_unboost_expires
  | max_unboost_expires
  deriving DecidableEq, Repr

/-- The state after one operation.  A delayed work that is not pending has no
expiry to reach. -/
def apply_event (k : Kernel) (b : boost_drv) : Event → boost_drv
  | Event.kick p jiffies => __cpu_input_boost_kick k p jiffies b
  | Event.kick_max p jiffies ticks duration_ms =>
    __cpu_input_boost_kick_max k p jiffies ticks b duration_ms
  | Event.display p jiffies ticks action blank =>
    (msm_drm_notifier_cb k p jiffies ticks b action blank).1
  | Event.input_unboost_expires =>
    if b.input_unboost.isSome then fire_input_unboost b else b
  | Event.max_unboost_expires =>
    if b.max_unboost.isSome then fire_max_unboost b else b

/-- The state after a sequence of operations. -/
def run_events (k : Kernel) (b : boost_drv) (events : List Event) : boost_drv :=
  events.foldl (apply_event k) b

/-- How far the counter advanced between the two readings of the `kick_max`
an operation performs; zero for an operation that performs none. -/
def event_ticks : Event → Nat
  | Event.kick_max _ _ ticks _ => ticks
  | Event.display _ _ ticks _ _ => ticks
  | _ => 0

/-- Every set boost flag has its unboost work pending, and a pending
max-unboost work expires at the stored `max_boost_expires` plus at most
`slack` ticks (on the `unsigned long` counter). -/
def boost_scheduled (slack : Nat) (b : boost_drv) : Prop :=
  b.max_boost_expires < ULONG_RANGE ∧
  (test_bit INPUT_BOOST b.state = true → b.input_unboost.isSome = true) ∧
  (test_bit MAX_BOOST b.state = true → b.max_unboost.isSome = true) ∧
  (∀ d, b.max_unboost = some d →
    ∃ t, t ≤ slack ∧ d = (b.max_boost_expires + t) % ULONG_RANGE)

/-- One `kick_max` of 1000 ms at jiffy 0 during which the counter ticks once
before the timer is set. -/
def events_with_tick : List Event :=
  [Event.kick_max params_unset 0 1 1000]

/-- A run used as example: kick, wake boost, blank, unblank, input-unboost
expiry. -/
def events_example : List Event :=
  [Event.kick params_unset 0, Event.display params_unset 5 0 2 0,
   Event.display params_unset 10 0 2 1, Event.display params_unset 20 0 2 0,
   Event.input_unboost_expires]

/-! ## Concurrent callers of `kick_max` (lines 249-257)

Several callers, past the `enabled` and ScreenOff tests, run the loop of lines
249-257 against the one `max_boost_expires`.  Each caller advances by atomic
steps: the read of lines 250-251, the comparison of line 254, the
compare-and-exchange of line 256.  A schedule names, step by step, the caller
that moves next and the jiffies value at that moment. -/

/-- Where a caller stands in the loop. -/
inductive CallerPc where
  | at_read
  | at_compare (curr_expires new_expires : Nat)
  | at_cmpxchg (curr_expires new_expires : Nat)
  | skipped (curr_expires new_expires : Nat)
  | updated (new_expires : Nat)
  deriving DecidableEq, Repr

/-- One caller: its `boost_jiffies` and its place in the loop. -/
structure KickMaxCaller where
  boost_jiffies : Nat
  pc : CallerPc
  deriving DecidableEq, Repr

/-- The shared expiry and the callers working on it. -/
structure SharedExpiry where
  max_boost_expires : Nat
  callers : List KickMaxCaller
  deriving DecidableEq, Repr

/-- One atomic step of a caller at time `jiffies` against the stored value
`v`: the value left in `max_boost_expires` and the caller afterwards.
`skipped` is the return of line 255, keeping the two values the caller
compared there, `updated` the exit of the loop after a
successful compare-and-exchange. -/
def caller_step (jiffies v : Nat) (c : KickMaxCaller) : Nat × KickMaxCaller :=
  match c.pc with
  | CallerPc.at_read =>
    (v, { c with pc := CallerPc.at_compare v ((jiffies + c.boost_jiffies) % ULONG_RANGE) })
  | CallerPc.at_compare curr_expires new_expires =>
    (v, { c with pc := if time_after curr_expires new_expires
                       then CallerPc.skipped curr_expires new_expires
                       else CallerPc.at_cmpxchg curr_expires new_expires })
  | CallerPc.at_cmpxchg curr_expires new_expires =>
    ((atomic_long_cmpxchg v curr_expires new_expires).2,
     { c with pc := if (atomic_long_cmpxchg v curr_expires new_expires).1 ≠ curr_expires
                    then CallerPc.at_read else CallerPc.updated new_expires })
  | CallerPc.skipped _ _ => (v, c)
  | CallerPc.updated _ => (v, c)

/-- One step of the schedule: caller number `step.1` moves at jiffies
`step.2`; a number that names no caller moves nothing. -/
def sched_step (s : SharedExpiry) (step : Nat × Nat) : SharedExpiry :=
  match s.callers[step.1]? with
  | none => s
  | some c =>
    { max_boost_expires := (caller_step step.2 s.max_boost_expires c).1,
      callers := s.callers.set step.1 (caller_step step.2 s.max_boost_expires c).2 }

/-- The state after a whole schedule. -/
def run_schedule (s : SharedExpiry) (sched : List (Nat × Nat)) : SharedExpiry :=
  sched.foldl sched_step s

/-- All callers about to enter the loop, one per given `boost_jiffies`. -/
def callers_start (expires : Nat) (durations : List Nat) : SharedExpiry :=
  { max_boost_expires := expires,
    callers := durations.map (fun d => { boost_jiffies := d, pc := CallerPc.at_read }) }

/-- The caller returned at line 255 without storing its candidate. -/
def was_skipped (c : KickMaxCaller) : Bool :=
  match c.pc with
  | CallerPc.skipped _ _ => true
  | _ => false

/-- The caller has returned from the loop. -/
def has_returned (c : KickMaxCaller) : Bool :=
  match c.pc with
  | CallerPc.skipped _ _ => true
  | CallerPc.updated _ => true
  | _ => false

/-- What a caller's local values satisfy relative to the initial expiry `e0`
and the stored value `v`. -/
def caller_ok (e0 v : Nat) (c : KickMaxCaller) : Prop :=
  match c.pc with
  | CallerPc.at_read => True
  | CallerPc.at_compare curr_expires new_expires =>
    e0 ≤ curr_expires ∧ curr_expires ≤ v ∧ new_expires < ULONG_RANGE / 2
  | CallerPc.at_cmpxchg curr_expires new_expires =>
    e0 ≤ curr_expires ∧ curr_expires ≤ v ∧ curr_expires ≤ new_expires ∧
      new_expires < ULONG_RANGE / 2
  | CallerPc.skipped curr_expires new_expires =>
    e0 ≤ curr_expires ∧ curr_expires ≤ v ∧ new_expires < curr_expires
  | CallerPc.updated new_expires => e0 ≤ new_expires ∧ new_expires ≤ v

/-- The invariant of the interleaved runs. -/
def expiry_invariant (e0 : Nat) (durations : List Nat) (s : SharedExpiry) : Prop :=
  s.max_boost_expires < ULONG_RANGE / 2 ∧ e0 ≤ s.max_boost_expires ∧
  (∀ c ∈ s.callers, caller_ok e0 s.max_boost_expires c ∧ c.boost_jiffies ∈ durations) ∧
  (s.max_boost_expires = e0 ∨
    ∃ c ∈ s.callers, c.pc = CallerPc.updated s.max_boost_expires)

/-- Two callers (100 and 200 jiffies) interleaved so that the first one's
compare-and-exchange fails after the second one's succeeded. -/
def schedule_example : List (Nat × Nat) :=
  [(0, 10), (1, 10), (0, 10), (1, 10), (1, 10), (0, 11), (0, 12), (0, 12)]

/-- How many steps a caller running alone still needs before it has
returned, given the stored value `v`. -/
def loop_rank (v : Nat) (c : KickMaxCaller) : Nat :=
  match c.pc with
  | CallerPc.skipped _ _ => 0
  | CallerPc.updated _ => 0
  | CallerPc.at_cmpxchg curr_expires _ => if v = curr_expires then 1 else 4
  | CallerPc.at_compare curr_expires _ => if v = curr_expires then 2 else 5
  | CallerPc.at_read => 3

/-- The schedule that lets callers `0 .. n-1` finish one after the other, each
running alone for five steps at time `jiffies`. -/
def finish_all (jiffies : Nat) : Nat → List (Nat × Nat)
  | 0 => []
  | n + 1 => finish_all jiffies n ++ List.replicate 5 (n, jiffies)

/-! ## Bit-operation lemmas -/

theorem test_bit_set_bit (n m s : Nat) :
    test_bit m (set_bit n s) = (test_bit m s || decide (n = m)) := by
  simp [test_bit, set_bit, Nat.testBit_or, Nat.one_shiftLeft, Nat.testBit_two_pow]

theorem test_bit_clear_bit (n m s : Nat) (hm : m < 64) :
    test_bit m (clear_bit n s) = (test_bit m s && !decide (n = m)) := by
  have h : Nat.testBit (2 ^ 64 - 1) m = true := by
    rw [Nat.testBit_two_pow_sub_one]; simpa using hm
  unfold test_bit clear_bit ULONG_RANGE BITS_PER_LONG
  rw [Nat.testBit_and, Nat.testBit_xor, h, Nat.one_shiftLeft, Nat.testBit_two_pow]
  simp

/-! ## The resolver does not read `enabled` -/

theorem get_idle_freq_enabled (p : Params) (e : Nat) (policy : cpufreq_policy) :
    get_idle_freq { p with enabled := e } policy = get_idle_freq p policy := rfl

theorem get_max_boost_freq_enabled (p : Params) (e : Nat) (policy : cpufreq_policy) :
    get_max_boost_freq { p with enabled := e } policy = get_max_boost_freq p policy := rfl

theorem get_input_boost_freq_enabled (p : Params) (e : Nat) (policy : cpufreq_policy) :
    get_input_boost_freq { p with enabled := e } policy = get_input_boost_freq p policy := rfl

theorem get_min_freq_enabled (p : Params) (e : Nat) (policy : cpufreq_policy) :
    get_min_freq { p with enabled := e } policy = get_min_freq p policy := rfl

/-- The floor written on ADJUST when the driver is enabled, as a cascade over
the three flags. -/
theorem resolved_floor_enabled (k : Kernel) (p : Params) (b : boost_drv)
    (policy : cpufreq_policy) (h : p.enabled ≠ 0) :
    resolved_floor k p b policy =
      if test_bit SCREEN_OFF b.state then get_idle_freq p policy
      else if test_bit MAX_BOOST b.state then get_max_boost_freq p policy
      else if test_bit INPUT_BOOST b.state then get_input_boost_freq p policy
      else get_min_freq p policy := by
  unfold resolved_floor cpu_notifier_cb
  simp only [if_neg h, ne_eq, not_true_eq_false, if_false, Nat.not_lt_zero]
  by_cases h1 : p.enabled > 1
  · simp only [if_pos h1, get_idle_freq_enabled, get_max_boost_freq_enabled,
      get_input_boost_freq_enabled, get_min_freq_enabled]
    split_ifs <;> rfl
  · simp only [if_neg h1]
    split_ifs <;> rfl

/-- The floor written when the driver is disabled. -/
theorem resolved_floor_disabled (k : Kernel) (p : Params) (b : boost_drv)
    (policy : cpufreq_policy) (h : p.enabled = 0) :
    resolved_floor k p b policy = policy.cpuinfo.min_freq := by
  unfold resolved_floor cpu_notifier_cb
  simp only [if_pos h]

/-! ## C1: precedence of the flags -/

/-- C1: with `enabled != 0` and an ADJUST action, the floor written to
`policy->min` is the one of the highest-precedence flag that is set
(ScreenOff, then MaxBoost, then InputBoost, then none), and two states that
agree on that flag get the same floor whatever their lower-precedence flags. -/
theorem cpu_notifier_cb_precedence (k : Kernel) (p : Params) (policy : cpufreq_policy)
    (h : p.enabled ≠ 0) :
    (∀ b : boost_drv, test_bit SCREEN_OFF b.state = true →
        resolved_floor k p b policy = get_idle_freq p policy) ∧
    (∀ b : boost_drv, test_bit SCREEN_OFF b.state = false →
        test_bit MAX_BOOST b.state = true →
        resolved_floor k p b policy = get_max_boost_freq p policy) ∧
    (∀ b : boost_drv, test_bit SCREEN_OFF b.state = false →
        test_bit MAX_BOOST b.state = false → test_bit INPUT_BOOST b.state = true →
        resolved_floor k p b policy = get_input_boost_freq p policy) ∧
    (∀ b : boost_drv, test_bit SCREEN_OFF b.state = false →
        test_bit MAX_BOOST b.state = false → test_bit INPUT_BOOST b.state = false →
        resolved_floor k p b policy = get_min_freq p policy) ∧
    (∀ b b' : boost_drv, test_bit SCREEN_OFF b.state = true →
        test_bit SCREEN_OFF b'.state = true →
        resolved_floor k p b policy = resolved_floor k p b' policy) ∧
    (∀ b b' : boost_drv, test_bit SCREEN_OFF b.state = false →
        test_bit SCREEN_OFF b'.state = false →
        test_bit MAX_BOOST b.state = true → test_bit MAX_BOOST b'.state = true →
        resolved_floor k p b policy = resolved_floor k p b' policy) := by
  refine ⟨?_, ?_, ?_, ?_, ?_, ?_⟩
  · intro b h1
    rw [resolved_floor_enabled k p b policy h, if_pos h1]
  · intro b h1 h2
    rw [resolved_floor_enabled k p b policy h]
    simp [h1, h2]
  · intro b h1 h2 h3
    rw [resolved_floor_enabled k p b policy h]
    simp [h1, h2, h3]
  · intro b h1 h2 h3
    rw [resolved_floor_enabled k p b policy h]
    simp [h1, h2, h3]
  · intro b b' h1 h2
    rw [resolved_floor_enabled k p b policy h, resolved_floor_enabled k p b' policy h,
      if_pos h1, if_pos h2]
  · intro b b' h1 h2 h3 h4
    rw [resolved_floor_enabled k p b policy h, resolved_floor_enabled k p b' policy h]
    simp [h1, h2, h3, h4]

/-- C1 at a concrete input: ScreenOff and MaxBoost both set on a performance
core resolves to the idle floor. -/
theorem cpu_notifier_cb_precedence_witness :
    params_scenario.enabled ≠ 0 ∧
    resolved_floor kernel_hz1000 params_scenario (drv_with_flags 5) policy_perf
      = get_idle_freq params_scenario policy_perf :=
  ⟨by decide,
   (cpu_notifier_cb_precedence kernel_hz1000 params_scenario policy_perf (by decide)).1
     (drv_with_flags 5) (by decide)⟩

/-! ## C2: bounds of the floor -/

/-- What the four resolver functions return when the group's settings are
read. -/
theorem resolver_values (p : Params) (policy : cpufreq_policy)
    (hr : reads_group_settings p policy) :
    get_idle_freq p policy =
      min (if p.idle_freq (core_group policy.cpu) = 0 then policy.cpuinfo.min_freq
           else p.idle_freq (core_group policy.cpu)) policy.cpuinfo.min_freq ∧
    get_max_boost_freq p policy =
      min (if max_boost_setting p (core_group policy.cpu) = 0 then policy.cpuinfo.max_freq
           else max_boost_setting p (core_group policy.cpu)) policy.max ∧
    get_input_boost_freq p policy =
      min (if input_boost_setting p (core_group policy.cpu) = 0 then policy.min
           else input_boost_setting p (core_group policy.cpu)) policy.max ∧
    get_min_freq p policy = max (p.min_freq (core_group policy.cpu)) policy.cpuinfo.min_freq := by
  unfold reads_group_settings at hr
  unfold get_idle_freq get_max_boost_freq get_input_boost_freq get_min_freq max_boost_setting
    input_boost_setting
  unfold core_group at hr ⊢
  cases hl : cpumask_test_cpu policy.cpu real_lp_cpu_bits <;>
    cases hp : cpumask_test_cpu policy.cpu real_perf_cpu_bits <;>
    cases hs : p.skip_prime_cores <;>
    simp [hl, hp, hs, Params.input_boost_freq, Params.max_boost_freq, Params.min_freq,
      Params.idle_freq] at hr ⊢

/-- What the four resolver functions return for a prime CPU under
`skip_prime_cores`. -/
theorem resolver_values_skipped (p : Params) (policy : cpufreq_policy)
    (hr : ¬ reads_group_settings p policy) :
    get_idle_freq p policy = policy.cpuinfo.min_freq ∧
    get_max_boost_freq p policy =
      min (if policy.cpuinfo.min_freq = 0 then policy.cpuinfo.max_freq
           else policy.cpuinfo.min_freq) policy.max ∧
    get_input_boost_freq p policy =
      min (if policy.cpuinfo.min_freq = 0 then policy.min
           else policy.cpuinfo.min_freq) policy.max ∧
    get_min_freq p policy = policy.cpuinfo.min_freq := by
  unfold reads_group_settings at hr
  unfold get_idle_freq get_max_boost_freq get_input_boost_freq get_min_freq
  unfold core_group at hr
  cases hl : cpumask_test_cpu policy.cpu real_lp_cpu_bits <;>
    cases hp : cpumask_test_cpu policy.cpu real_perf_cpu_bits <;>
    cases hs : p.skip_prime_cores <;>
    simp [hl, hp, hs] at hr ⊢

/-- C3: when `enabled == 0`, whatever the flags, the CPU and the action,
`cpu_notifier_cb` sets `policy->min` to `policy->cpuinfo.min_freq`, leaves every
other field of the policy and every module parameter as it was, and returns
`NOTIFY_OK`. -/
theorem cpu_notifier_cb_disabled (k : Kernel) (p : Params) (b : boost_drv) (action : Nat)
    (policy : cpufreq_policy) (h : p.enabled = 0) :
    cpu_notifier_cb k p b action policy =
      { params := p,
        policy := { cpu := policy.cpu, min := policy.cpuinfo.min_freq, max := policy.max,
                    cpuinfo := policy.cpuinfo },
        ret := k.NOTIFY_OK } := by
  unfold cpu_notifier_cb
  rw [if_pos h]

/-- C3 at a concrete input: disabled, all three flags set, a non-ADJUST action. -/
theorem cpu_notifier_cb_disabled_witness :
    ({ params_scenario with enabled := 0 } : Params).enabled = 0 ∧
    cpu_notifier_cb kernel_hz1000 { params_scenario with enabled := 0 } (drv_with_flags 7) 1
        policy_perf_capped =
      { params := { params_scenario with enabled := 0 },
        policy := { cpu := 4, min := 300, max := 1000,
                    cpuinfo := { min_freq := 300, max_freq := 2000 } },
        ret := 1 } :=
  ⟨rfl, cpu_notifier_cb_disabled kernel_hz1000 { params_scenario with enabled := 0 }
    (drv_with_flags 7) 1 policy_perf_capped rfl⟩

/-! ## C4: which branches are clamped to `policy->max` -/

/-- C5 at a failing input: performance idle frequency 500 MHz, hardware
minimum 300 MHz, ScreenOff set.  The code writes 300 MHz where the claim asks
for `max(idle_freq, hw_min)` = 500 MHz. -/
theorem screen_off_floor_takes_min :
    resolved_floor kernel_hz1000 params_idle_500 (drv_with_flags 1) policy_perf = 300 ∧
    max (params_idle_500.idle_freq (core_group policy_perf.cpu))
        policy_perf.cpuinfo.min_freq = 500 := by
  decide

/-! ## C6: skip-prime-cores -/

/-- C6 fails as stated: for a prime policy whose hardware minimum is zero the
`freq == 0` fall-back of `get_max_boost_freq` replaces the hardware minimum by
the hardware maximum. -/
theorem skip_prime_counterexample :
    params_skip_prime.enabled ≠ 0 ∧ params_skip_prime.skip_prime_cores = true ∧
    cpumask_test_cpu policy_prime_zero.cpu real_lp_cpu_bits = false ∧
    cpumask_test_cpu policy_prime_zero.cpu real_perf_cpu_bits = false ∧
    resolved_floor kernel_hz1000 params_skip_prime (drv_with_flags 4) policy_prime_zero = 2000 ∧
    policy_prime_zero.cpuinfo.min_freq = 0 := by
  decide

/-- C6 as amended: with `skip_prime_cores` set and `enabled != 0`, for a CPU in
neither the low-power nor the performance mask, the floor written on ADJUST
equals `policy->cpuinfo.min_freq` in every flags state when
`0 < cpuinfo.min_freq <= policy->max`, and for every policy when ScreenOff is
set or no boost flag is set. -/
theorem skip_prime_floor (k : Kernel) (p : Params) (b : boost_drv) (policy : cpufreq_policy)
    (he : p.enabled ≠ 0) (hs : p.skip_prime_cores = true)
    (hl : cpumask_test_cpu policy.cpu real_lp_cpu_bits = false)
    (hp : cpumask_test_cpu policy.cpu real_perf_cpu_bits = false) :
    ((0 < policy.cpuinfo.min_freq ∧ policy.cpuinfo.min_freq ≤ policy.max) →
        resolved_floor k p b policy = policy.cpuinfo.min_freq) ∧
    ((test_bit SCREEN_OFF b.state = true ∨
        (test_bit MAX_BOOST b.state = false ∧ test_bit INPUT_BOOST b.state = false)) →
        resolved_floor k p b policy = policy.cpuinfo.min_freq) := by
  rw [resolved_floor_enabled k p b policy he]
  unfold get_idle_freq get_max_boost_freq get_input_boost_freq get_min_freq
  simp only [hl, hp, hs, Bool.false_eq_true, if_true, if_false]
  constructor
  · rintro ⟨h0, h1⟩
    split_ifs <;> omega
  · rintro (h | ⟨h2, h3⟩)
    · simp [h]
    · simp only [h2, h3, Bool.false_eq_true, if_false]
      split_ifs <;> simp

/-- C6 as amended, at a concrete input: cpu7 with hardware range
300..2000 MHz with InputBoost and MaxBoost set. -/
theorem skip_prime_floor_witness :
    params_skip_prime.enabled ≠ 0 ∧
    resolved_floor kernel_hz1000 params_skip_prime (drv_with_flags 6) policy_prime = 300 :=
  ⟨by decide,
   (skip_prime_floor kernel_hz1000 params_skip_prime (drv_with_flags 6) policy_prime
      (by decide) rfl (by decide) (by decide)).1 ⟨by decide, by decide⟩⟩

/-! ## C7: the max-boost expiry only moves forward -/

theorem time_after_eq_of_within (a c : Nat) (ha : a < ULONG_RANGE) (hc : c < ULONG_RANGE)
    (h : within_half_range a c) : time_after a c = decide (c < a) := by
  unfold within_half_range at h
  unfold time_after
  rw [Nat.mod_eq_of_lt ha, Nat.mod_eq_of_lt hc]
  have hR : ULONG_RANGE = 2 * (ULONG_RANGE / 2) := by decide
  generalize ULONG_RANGE / 2 = H at *
  generalize ULONG_RANGE = R at *
  by_cases hlt : c < a
  · have e : (c + (R - a)) % R = c + (R - a) := Nat.mod_eq_of_lt (by omega)
    rw [e]
    simp only [hlt, decide_True, decide_eq_true_eq]
    omega
  · have e : (c + (R - a)) % R = c - a := by
      have e1 : c + (R - a) = (c - a) + R := by omega
      rw [e1, Nat.add_mod_right]
      exact Nat.mod_eq_of_lt (by omega)
    rw [e]
    simp only [hlt, decide_False, decide_eq_false_iff_not]
    omega

theorem candidate_expiry_lt (k : Kernel) (jiffies d : Nat) :
    candidate_expiry k jiffies d < ULONG_RANGE :=
  Nat.mod_lt _ (by unfold ULONG_RANGE BITS_PER_LONG; norm_num)

/-- The stored expiry after one `kick_max`, whatever the state. -/
theorem kick_max_expires (k : Kernel) (p : Params) (jiffies ticks : Nat) (b : boost_drv) (d : Nat) :
    (__cpu_input_boost_kick_max k p jiffies ticks b d).max_boost_expires =
      if p.enabled = 0 ∨ test_bit SCREEN_OFF b.state = true ∨
          time_after b.max_boost_expires (candidate_expiry k jiffies d) = true
      then b.max_boost_expires else candidate_expiry k jiffies d := by
  unfold __cpu_input_boost_kick_max atomic_long_cmpxchg mod_delayed_work wake_up candidate_expiry
  by_cases h1 : p.enabled = 0
  · simp [h1]
  · by_cases h2 : test_bit SCREEN_OFF b.state = true
    · simp [h1, h2]
    · by_cases h3 : time_after b.max_boost_expires
          ((jiffies + k.msecs_to_jiffies d) % ULONG_RANGE) = true
      · simp [h1, h2, h3]
      · simp only [h1, h2, h3, if_false, or_self, if_true]
        cases b.max_unboost <;> rfl

/-- The flags word after one `kick_max`, whatever the state. -/
theorem kick_max_state (k : Kernel) (p : Params) (jiffies ticks : Nat) (b : boost_drv) (d : Nat) :
    (__cpu_input_boost_kick_max k p jiffies ticks b d).state = b.state ∨
    (__cpu_input_boost_kick_max k p jiffies ticks b d).state = set_bit MAX_BOOST b.state := by
  unfold __cpu_input_boost_kick_max atomic_long_cmpxchg mod_delayed_work wake_up
  simp only
  split_ifs <;> simp

theorem kick_max_screen_off (k : Kernel) (p : Params) (jiffies ticks : Nat) (b : boost_drv) (d : Nat) :
    test_bit SCREEN_OFF (__cpu_input_boost_kick_max k p jiffies ticks b d).state
      = test_bit SCREEN_OFF b.state := by
  rcases kick_max_state k p jiffies ticks b d with h | h
  · rw [h]
  · rw [h, test_bit_set_bit]
    simp [MAX_BOOST, SCREEN_OFF]

theorem kick_max_expires_of_within (k : Kernel) (p : Params) (jiffies ticks : Nat) (b : boost_drv)
    (d : Nat) (he : p.enabled ≠ 0) (hs : test_bit SCREEN_OFF b.state = false)
    (hc : b.max_boost_expires < ULONG_RANGE)
    (hw : within_half_range b.max_boost_expires (candidate_expiry k jiffies d)) :
    (__cpu_input_boost_kick_max k p jiffies ticks b d).max_boost_expires =
      max b.max_boost_expires (candidate_expiry k jiffies d) := by
  rw [kick_max_expires, time_after_eq_of_within _ _ hc (candidate_expiry_lt k jiffies d) hw]
  simp only [he, hs, Bool.false_eq_true, false_or, decide_eq_true_eq]
  split_ifs with h <;> omega

/-- C7: with `enabled != 0` and ScreenOff clear, a `kick_max` whose candidate
expiry `now + d` lies within half the counter range of the stored expiry
leaves `max_boost_expires` equal to the larger of the two; over a series of
such calls made one after the other the stored expiry never decreases. -/
theorem kick_max_expiry_monotone (k : Kernel) (p : Params) (he : p.enabled ≠ 0) :
    (∀ (b : boost_drv) (jiffies ticks d : Nat), test_bit SCREEN_OFF b.state = false →
        b.max_boost_expires < ULONG_RANGE →
        within_half_range b.max_boost_expires (candidate_expiry k jiffies d) →
        (__cpu_input_boost_kick_max k p jiffies ticks b d).max_boost_expires =
          max b.max_boost_expires (candidate_expiry k jiffies d)) ∧
    (∀ (calls : List (Nat × Nat × Nat)) (b : boost_drv), test_bit SCREEN_OFF b.state = false →
        b.max_boost_expires < ULONG_RANGE →
        series_within_half_range k p b calls →
        List.Chain (fun x y => x ≤ y) b.max_boost_expires (kick_max_trace k p b calls)) := by
  refine ⟨fun b jiffies ticks d hs hc hw =>
    kick_max_expires_of_within k p jiffies ticks b d he hs hc hw, ?_⟩
  intro calls
  induction calls with
  | nil => intro b _ _ _; exact List.Chain.nil
  | cons c rest ih =>
    intro b hs hc hw
    obtain ⟨hw1, hw2⟩ := hw
    have hstep := kick_max_expires_of_within k p c.1 c.2.1 b c.2.2 he hs hc hw1
    have hlt : (__cpu_input_boost_kick_max k p c.1 c.2.1 b c.2.2).max_boost_expires < ULONG_RANGE := by
      rw [hstep]
      exact max_lt hc (candidate_expiry_lt k c.1 c.2.2)
    have hso : test_bit SCREEN_OFF (__cpu_input_boost_kick_max k p c.1 c.2.1 b c.2.2).state = false := by
      rw [kick_max_screen_off]; exact hs
    refine List.Chain.cons ?_ (ih _ hso hlt hw2)
    rw [hstep]
    exact le_max_left _ _

/-- C7 at a concrete input: stored expiry 1000, then calls at jiffy 20 for
1000 ms and at jiffy 30 for 100 ms; the trace is 1020, 1020. -/
theorem kick_max_expiry_monotone_witness :
    params_unset.enabled ≠ 0 ∧
    (__cpu_input_boost_kick_max kernel_hz1000 params_unset 20 0 drv_after_unblank 1000).max_boost_expires
      = max drv_after_unblank.max_boost_expires (candidate_expiry kernel_hz1000 20 1000) ∧
    List.Chain (fun x y => x ≤ y) drv_after_unblank.max_boost_expires
      (kick_max_trace kernel_hz1000 params_unset drv_after_unblank [(20, 0, 1000), (30, 0, 100)]) :=
  ⟨by decide,
   (kick_max_expiry_monotone kernel_hz1000 params_unset (by decide)).1 drv_after_unblank 20 0 1000
     (by decide) (by decide) (by decide),
   (kick_max_expiry_monotone kernel_hz1000 params_unset (by decide)).2 [(20, 0, 1000), (30, 0, 100)]
     drv_after_unblank (by decide) (by decide)
     (by simp only [series_within_half_range]; decide)⟩

/-! ## C8: state changes and wake-ups -/

/-- C8 at a failing input reached from the initial state by display events
alone: unblank at jiffy 0 arms the wake boost, blank at jiffy 10 sets
ScreenOff, and the unblank at jiffy 20 changes the flags word from
ScreenOff+MaxBoost to MaxBoost while the wake-up count stays where it was,
because the max-unboost work was still pending. -/
theorem unblank_changes_flags_without_wake :
    drv_after_blank.state = 5 ∧
    drv_after_blank.max_unboost = some 1000 ∧
    drv_after_second_unblank.state = 4 ∧
    drv_after_second_unblank.state ≠ drv_after_blank.state ∧
    drv_after_second_unblank.boost_waitq = drv_after_blank.boost_waitq := by
  decide

/-! ## C9: the display power callback -/

/-- C9 fails as stated: with `enabled == 0` an early blank event that is not
an unblank leaves ScreenOff clear and wakes nobody. -/
theorem blank_ignored_when_disabled :
    test_bit SCREEN_OFF
      (msm_drm_notifier_cb kernel_hz1000 { params_unset with enabled := 0 } 10 0 boost_drv_g
        kernel_hz1000.MSM_DRM_EARLY_EVENT_BLANK MSM_DRM_BLANK_POWERDOWN).1.state = false ∧
    (msm_drm_notifier_cb kernel_hz1000 { params_unset with enabled := 0 } 10 0 boost_drv_g
        kernel_hz1000.MSM_DRM_EARLY_EVENT_BLANK MSM_DRM_BLANK_POWERDOWN).1.boost_waitq
      = boost_drv_g.boost_waitq := by
  decide

/-- C9 as amended: for an early blank event, when `enabled == 0` the callback
leaves the driver state as it was; when `enabled != 0`, an unblank clears
ScreenOff and then performs `kick_max(wake_boost_duration)`, ending with
ScreenOff clear, and any other blank value sets ScreenOff and issues one
wake-up, leaving InputBoost, MaxBoost, `max_boost_expires` and both timers
as they were. -/
theorem msm_drm_notifier_cb_early_blank (k : Kernel) (p : Params) (jiffies ticks : Nat)
    (b : boost_drv) (blank : Int) :
    (p.enabled = 0 →
      (msm_drm_notifier_cb k p jiffies ticks b k.MSM_DRM_EARLY_EVENT_BLANK blank).1 = b) ∧
    (p.enabled ≠ 0 → blank = k.MSM_DRM_BLANK_UNBLANK →
      (msm_drm_notifier_cb k p jiffies ticks b k.MSM_DRM_EARLY_EVENT_BLANK blank).1 =
        __cpu_input_boost_kick_max k p jiffies ticks
          { b with state := clear_bit SCREEN_OFF b.state } p.wake_boost_duration ∧
      test_bit SCREEN_OFF
        (msm_drm_notifier_cb k p jiffies ticks b k.MSM_DRM_EARLY_EVENT_BLANK blank).1.state = false) ∧
    (p.enabled ≠ 0 → blank ≠ k.MSM_DRM_BLANK_UNBLANK →
      (msm_drm_notifier_cb k p jiffies ticks b k.MSM_DRM_EARLY_EVENT_BLANK blank).1 =
        { input_unboost := b.input_unboost, max_unboost := b.max_unboost,
          boost_waitq := b.boost_waitq + 1, max_boost_expires := b.max_boost_expires,
          state := set_bit SCREEN_OFF b.state } ∧
      test_bit SCREEN_OFF
        (msm_drm_notifier_cb k p jiffies ticks b k.MSM_DRM_EARLY_EVENT_BLANK blank).1.state = true ∧
      test_bit INPUT_BOOST
        (msm_drm_notifier_cb k p jiffies ticks b k.MSM_DRM_EARLY_EVENT_BLANK blank).1.state
          = test_bit INPUT_BOOST b.state ∧
      test_bit MAX_BOOST
        (msm_drm_notifier_cb k p jiffies ticks b k.MSM_DRM_EARLY_EVENT_BLANK blank).1.state
          = test_bit MAX_BOOST b.state) := by
  refine ⟨?_, ?_, ?_⟩
  · intro he
    unfold msm_drm_notifier_cb
    rw [if_pos he]
  · intro he hb
    have e : (msm_drm_notifier_cb k p jiffies ticks b k.MSM_DRM_EARLY_EVENT_BLANK blank).1 =
        __cpu_input_boost_kick_max k p jiffies ticks
          { b with state := clear_bit SCREEN_OFF b.state } p.wake_boost_duration := by
      unfold msm_drm_notifier_cb
      simp only [if_neg he, ne_eq, not_true_eq_false, if_false, if_pos hb]
    refine ⟨e, ?_⟩
    rw [e, kick_max_screen_off, test_bit_clear_bit _ _ _ (by decide)]
    simp
  · intro he hb
    have e : (msm_drm_notifier_cb k p jiffies ticks b k.MSM_DRM_EARLY_EVENT_BLANK blank).1 =
        { input_unboost := b.input_unboost, max_unboost := b.max_unboost,
          boost_waitq := b.boost_waitq + 1, max_boost_expires := b.max_boost_expires,
          state := set_bit SCREEN_OFF b.state } := by
      unfold msm_drm_notifier_cb wake_up
      simp only [if_neg he, ne_eq, not_true_eq_false, if_false, if_neg hb]
    refine ⟨e, ?_, ?_, ?_⟩
    · rw [e, test_bit_set_bit]; simp
    · rw [e, test_bit_set_bit]; simp [SCREEN_OFF, INPUT_BOOST]
    · rw [e, test_bit_set_bit]; simp [SCREEN_OFF, MAX_BOOST]

/-- C9 as amended, at a concrete input: a power-down blank at jiffy 10 after
the wake boost was armed. -/
theorem msm_drm_notifier_cb_early_blank_witness :
    params_unset.enabled ≠ 0 ∧ MSM_DRM_BLANK_POWERDOWN ≠ kernel_hz1000.MSM_DRM_BLANK_UNBLANK ∧
    (msm_drm_notifier_cb kernel_hz1000 params_unset 10 0 drv_after_unblank
        kernel_hz1000.MSM_DRM_EARLY_EVENT_BLANK MSM_DRM_BLANK_POWERDOWN).1 =
      { input_unboost := drv_after_unblank.input_unboost,
        max_unboost := drv_after_unblank.max_unboost,
        boost_waitq := drv_after_unblank.boost_waitq + 1,
        max_boost_expires := drv_after_unblank.max_boost_expires,
        state := set_bit SCREEN_OFF drv_after_unblank.state } :=
  ⟨by decide, by decide,
   ((msm_drm_notifier_cb_early_blank kernel_hz1000 params_unset 10 0 drv_after_unblank
      MSM_DRM_BLANK_POWERDOWN).2.2 (by decide) (by decide)).1⟩

/-! ## C10: debounce coalescing -/

theorem run_max_timer_frame (t : Nat) (s : Timeline) :
    (run_max_timer t s).drv.input_unboost = s.drv.input_unboost ∧
    (run_max_timer t s).input_fires = s.input_fires ∧
    test_bit INPUT_BOOST (run_max_timer t s).drv.state = test_bit INPUT_BOOST s.drv.state ∧
    test_bit SCREEN_OFF (run_max_timer t s).drv.state = test_bit SCREEN_OFF s.drv.state := by
  unfold run_max_timer
  cases h : s.drv.max_unboost with
  | none => simp
  | some d =>
    by_cases hd : d ≤ t
    · simp only [hd, if_true, fire_max_unboost, max_unboost_worker, wake_up]
      refine ⟨trivial, trivial, ?_, ?_⟩
      · rw [test_bit_clear_bit _ _ _ (by decide)]; simp [MAX_BOOST, INPUT_BOOST]
      · rw [test_bit_clear_bit _ _ _ (by decide)]; simp [MAX_BOOST, SCREEN_OFF]
    · simp [hd]

theorem run_input_timer_not_due (t : Nat) (s : Timeline)
    (h : ∀ d, s.drv.input_unboost = some d → t < d) : run_input_timer t s = s := by
  unfold run_input_timer
  cases hi : s.drv.input_unboost with
  | none => rfl
  | some d =>
    have := h d hi
    simp only [Nat.not_le.mpr this, if_false]

theorem kick_arms (k : Kernel) (p : Params) (t : Nat) (b : boost_drv)
    (he : p.enabled ≠ 0) (hd : 0 < p.input_boost_duration)
    (hs : test_bit SCREEN_OFF b.state = false) :
    (__cpu_input_boost_kick k p t b).input_unboost =
        some ((t + k.msecs_to_jiffies p.input_boost_duration) % ULONG_RANGE) ∧
    test_bit INPUT_BOOST (__cpu_input_boost_kick k p t b).state = true ∧
    test_bit SCREEN_OFF (__cpu_input_boost_kick k p t b).state = false := by
  have hd' : ¬ p.input_boost_duration = 0 := by omega
  unfold __cpu_input_boost_kick mod_delayed_work wake_up
  simp only [if_neg he, hs, hd', decide_False, Bool.or_self, Bool.false_eq_true, if_false]
  have hs0 : test_bit 0 b.state = false := hs
  cases b.input_unboost <;>
    simp [test_bit_set_bit, hs0, INPUT_BOOST, SCREEN_OFF]

theorem kick_at_arms (k : Kernel) (p : Params) (t : Nat) (s : Timeline)
    (he : p.enabled ≠ 0) (hd : 0 < p.input_boost_duration)
    (hq : quiet_at t s)
    (hw : t + k.msecs_to_jiffies p.input_boost_duration < ULONG_RANGE) :
    armed_until (t + k.msecs_to_jiffies p.input_boost_duration) (kick_at k p t s) := by
  obtain ⟨h1, h2, h3⟩ := hq
  have hr : run_timers t s = run_max_timer t s := by
    unfold run_timers; rw [run_input_timer_not_due t s h1]
  obtain ⟨_, f2, _, f4⟩ := run_max_timer_frame t s
  have hs' : test_bit SCREEN_OFF (run_timers t s).drv.state = false := by
    rw [hr, f4]; exact h2
  obtain ⟨k1, k2, k3⟩ := kick_arms k p t (run_timers t s).drv he hd hs'
  unfold armed_until kick_at
  refine ⟨?_, k2, k3, ?_⟩
  · rw [k1, Nat.mod_eq_of_lt hw]
  · show (run_timers t s).input_fires = []
    rw [hr, f2]; exact h3

theorem quiet_of_armed (d t : Nat) (s : Timeline) (h : armed_until d s) (ht : t < d) :
    quiet_at t s := by
  obtain ⟨h1, _, h3, h4⟩ := h
  refine ⟨?_, h3, h4⟩
  intro d' hd'
  rw [h1] at hd'
  cases hd'
  exact ht

theorem armed_before_expiry (d u : Nat) (s : Timeline) (h : armed_until d s) (hu : u < d) :
    test_bit INPUT_BOOST (run_timers u s).drv.state = true ∧
    (run_timers u s).input_fires = [] := by
  have hq := quiet_of_armed d u s h hu
  obtain ⟨_, h2, _, h4⟩ := h
  obtain ⟨_, f2, f3, _⟩ := run_max_timer_frame u s
  unfold run_timers
  rw [run_input_timer_not_due u s hq.1, f2, f3]
  exact ⟨h2, h4⟩

theorem armed_after_expiry (d u : Nat) (s : Timeline) (h : armed_until d s) (hu : d ≤ u) :
    (run_timers u s).input_fires = [d] ∧
    test_bit INPUT_BOOST (run_timers u s).drv.state = false := by
  obtain ⟨h1, _, _, h4⟩ := h
  have hr : run_input_timer u s =
      { s with drv := fire_input_unboost s.drv, input_fires := s.input_fires ++ [d] } := by
    unfold run_input_timer
    rw [h1]
    simp only [hu, if_true]
  obtain ⟨_, f2, f3, _⟩ := run_max_timer_frame u (run_input_timer u s)
  unfold run_timers
  rw [f2, f3, hr]
  constructor
  · simp [h4]
  · simp only [fire_input_unboost, input_unboost_worker, wake_up]
    rw [test_bit_clear_bit _ _ _ (by decide)]
    simp

theorem chain_lt_all (gap : Nat) : ∀ (ts : List Nat) (t : Nat),
    List.Chain (closer_than gap) t ts → ∀ x ∈ ts, t < x := by
  intro ts
  induction ts with
  | nil => intro t _ x hx; cases hx
  | cons a rest ih =>
    intro t hc x hx
    rw [List.chain_cons] at hc
    rcases List.mem_cons.mp hx with rfl | hx
    · exact hc.1.1
    · exact lt_trans hc.1.1 (ih a hc.2 x hx)

theorem le_last_kick (gap : Nat) : ∀ (ts : List Nat) (t : Nat),
    List.Chain (closer_than gap) t ts → t ≤ last_kick t ts := by
  intro ts
  induction ts with
  | nil => intro t _; exact le_refl _
  | cons a rest ih =>
    intro t hc
    rw [List.chain_cons] at hc
    exact le_trans (le_of_lt hc.1.1) (ih a hc.2)

/-- The observation at time `u` once the boost is armed by a kick at `t` and
the later kicks `ts` follow at gaps below the debounce delay. -/
theorem burst_tail (k : Kernel) (p : Params) (he : p.enabled ≠ 0)
    (hd : 0 < p.input_boost_duration) :
    ∀ (ts : List Nat) (s : Timeline) (t u : Nat),
      armed_until (t + k.msecs_to_jiffies p.input_boost_duration) s →
      List.Chain (closer_than (k.msecs_to_jiffies p.input_boost_duration)) t ts →
      (∀ x ∈ ts, x + k.msecs_to_jiffies p.input_boost_duration < ULONG_RANGE) →
      t ≤ u →
      (u < last_kick t ts + k.msecs_to_jiffies p.input_boost_duration →
        test_bit INPUT_BOOST
          (run_timers u (kicks_then k p s (ts.filter (fun x => decide (x ≤ u))))).drv.state
            = true ∧
        (run_timers u (kicks_then k p s (ts.filter (fun x => decide (x ≤ u))))).input_fires
            = []) ∧
      (last_kick t ts + k.msecs_to_jiffies p.input_boost_duration ≤ u →
        (run_timers u (kicks_then k p s (ts.filter (fun x => decide (x ≤ u))))).input_fires
            = [last_kick t ts + k.msecs_to_jiffies p.input_boost_duration] ∧
        test_bit INPUT_BOOST
          (run_timers u (kicks_then k p s (ts.filter (fun x => decide (x ≤ u))))).drv.state
            = false) := by
  intro ts
  induction ts with
  | nil =>
    intro s t u ha _ _ _
    simp only [List.filter_nil, kicks_then, last_kick]
    exact ⟨fun h => armed_before_expiry _ u s ha h, fun h => armed_after_expiry _ u s ha h⟩
  | cons a rest ih =>
    intro s t u ha hc hw htu
    rw [List.chain_cons] at hc
    obtain ⟨⟨h1, h2⟩, hc'⟩ := hc
    by_cases hau : a ≤ u
    · have hf : (a :: rest).filter (fun x => decide (x ≤ u))
          = a :: rest.filter (fun x => decide (x ≤ u)) :=
        List.filter_cons_of_pos (by simpa using hau)
      rw [hf]
      have harm := kick_at_arms k p a s he hd (quiet_of_armed _ a s ha h2)
        (hw a (List.mem_cons_self a rest))
      exact ih (kick_at k p a s) a u harm hc'
        (fun x hx => hw x (List.mem_cons_of_mem a hx)) hau
    · have hua : u < a := Nat.lt_of_not_le hau
      have hf : (a :: rest).filter (fun x => decide (x ≤ u)) = [] := by
        rw [List.filter_eq_nil_iff]
        intro x hx
        have hax : a ≤ x := by
          rcases List.mem_cons.mp hx with rfl | hx
          · exact le_refl _
          · exact le_of_lt (chain_lt_all _ rest a hc' x hx)
        simp only [decide_eq_true_eq]
        omega
      have hl : a ≤ last_kick a rest := le_last_kick _ rest a hc'
      rw [hf]
      simp only [kicks_then, last_kick]
      refine ⟨fun _ => armed_before_expiry _ u s ha (by omega), fun h => ?_⟩
      omega

/-- C10: with `enabled != 0`, ScreenOff clear and `input_boost_duration > 0`,
let `kick()` be called at times `t1 < ... < tN` (in jiffies), each gap below
the debounce delay `msecs_to_jiffies(input_boost_duration)`, starting from a
state in which no input-unboost run is due by `t1`.  Then at every time from
`t1` up to (excluding) `tN + delay` InputBoost is set and the input-unboost
worker has not run, and at every time from `tN + delay` on the worker has run
exactly once, at `tN + delay`, and InputBoost is clear. -/
theorem kick_burst_single_unboost (k : Kernel) (p : Params) (b : boost_drv) (t1 : Nat)
    (ts : List Nat) (he : p.enabled ≠ 0) (hd : 0 < p.input_boost_duration)
    (hs : test_bit SCREEN_OFF b.state = false)
    (hidle : ∀ d, b.input_unboost = some d → t1 < d)
    (hgap : List.Chain (closer_than (k.msecs_to_jiffies p.input_boost_duration)) t1 ts)
    (hwrap : ∀ x ∈ t1 :: ts, x + k.msecs_to_jiffies p.input_boost_duration < ULONG_RANGE) :
    (∀ u, t1 ≤ u → u < last_kick t1 ts + k.msecs_to_jiffies p.input_boost_duration →
      test_bit INPUT_BOOST
        (observe_at k p { drv := b, input_fires := [], max_fires := [] } (t1 :: ts) u).drv.state
          = true ∧
      (observe_at k p { drv := b, input_fires := [], max_fires := [] } (t1 :: ts) u).input_fires
          = []) ∧
    (∀ u, last_kick t1 ts + k.msecs_to_jiffies p.input_boost_duration ≤ u →
      (observe_at k p { drv := b, input_fires := [], max_fires := [] } (t1 :: ts) u).input_fires
          = [last_kick t1 ts + k.msecs_to_jiffies p.input_boost_duration] ∧
      test_bit INPUT_BOOST
        (observe_at k p { drv := b, input_fires := [], max_fires := [] } (t1 :: ts) u).drv.state
          = false) := by
  have hl : t1 ≤ last_kick t1 ts := le_last_kick _ ts t1 hgap
  have harm := kick_at_arms k p t1 { drv := b, input_fires := [], max_fires := [] } he hd
    ⟨hidle, hs, rfl⟩ (hwrap t1 (List.mem_cons_self t1 ts))
  have key : ∀ u, t1 ≤ u →
      observe_at k p { drv := b, input_fires := [], max_fires := [] } (t1 :: ts) u =
        run_timers u (kicks_then k p
          (kick_at k p t1 { drv := b, input_fires := [], max_fires := [] })
          (ts.filter (fun x => decide (x ≤ u)))) := by
    intro u hu
    unfold observe_at
    rw [List.filter_cons_of_pos (by simpa using hu)]
    rfl
  constructor
  · intro u hu hlt
    rw [key u hu]
    exact (burst_tail k p he hd ts _ t1 u harm hgap
      (fun x hx => hwrap x (List.mem_cons_of_mem t1 hx)) hu).1 hlt
  · intro u hge
    have hu : t1 ≤ u := by omega
    rw [key u hu]
    exact (burst_tail k p he hd ts _ t1 u harm hgap
      (fun x hx => hwrap x (List.mem_cons_of_mem t1 hx)) hu).2 hge

/-- C10 at a concrete input: from the initial state, with a debounce delay of
64 jiffies, kicks at jiffies 100, 130 and 150; InputBoost is still set at
jiffy 200 and the single unboost has run at jiffy 214. -/
theorem kick_burst_single_unboost_witness :
    params_unset.enabled ≠ 0 ∧ 0 < params_unset.input_boost_duration ∧
    List.Chain (closer_than 64) 100 burst_rest ∧
    (test_bit INPUT_BOOST
      (observe_at kernel_hz1000 params_unset
        { drv := boost_drv_g, input_fires := [], max_fires := [] } (100 :: burst_rest) 200).drv.state
        = true ∧
     (observe_at kernel_hz1000 params_unset
        { drv := boost_drv_g, input_fires := [], max_fires := [] } (100 :: burst_rest) 200).input_fires
        = []) ∧
    ((observe_at kernel_hz1000 params_unset
        { drv := boost_drv_g, input_fires := [], max_fires := [] } (100 :: burst_rest) 1000).input_fires
        = [214] ∧
     test_bit INPUT_BOOST
      (observe_at kernel_hz1000 params_unset
        { drv := boost_drv_g, input_fires := [], max_fires := [] } (100 :: burst_rest) 1000).drv.state
        = false) :=
  have hc : List.Chain (closer_than 64) 100 burst_rest :=
    List.Chain.cons ⟨by decide, by decide⟩
      (List.Chain.cons ⟨by decide, by decide⟩ List.Chain.nil)
  have hw : ∀ x ∈ 100 :: burst_rest, x + 64 < ULONG_RANGE := by decide
  ⟨by decide, by decide, hc,
   (kick_burst_single_unboost kernel_hz1000 params_unset boost_drv_g 100 burst_rest
      (by decide) (by decide) (by decide) (fun _ h => nomatch h) hc hw).1 200
      (by decide) (by decide),
   (kick_burst_single_unboost kernel_hz1000 params_unset boost_drv_g 100 burst_rest
      (by decide) (by decide) (by decide) (fun _ h => nomatch h) hc hw).2 1000
      (by decide)⟩

/-! ## C11: what `kick()` does -/

/-- C11: if `enabled == 0`, or ScreenOff is set, or `input_boost_duration == 0`,
`__cpu_input_boost_kick` returns the state it was given (flags, expiry, both
timers and the wake-up count).  Otherwise it sets InputBoost, makes the
input-unboost work pending with expiry `jiffies + input_boost_duration` (in
jiffies, on the `unsigned long` counter), leaves ScreenOff, MaxBoost,
`max_boost_expires` and the max-unboost work as they were, and issues one
wake-up exactly when the input-unboost work was idle before the call. -/
theorem kick_effect (k : Kernel) (p : Params) (jiffies : Nat) (b : boost_drv) :
    ((p.enabled = 0 ∨ test_bit SCREEN_OFF b.state = true ∨ p.input_boost_duration = 0) →
      __cpu_input_boost_kick k p jiffies b = b) ∧
    (p.enabled ≠ 0 → test_bit SCREEN_OFF b.state = false → p.input_boost_duration ≠ 0 →
      __cpu_input_boost_kick k p jiffies b =
        { input_unboost :=
            some ((jiffies + k.msecs_to_jiffies p.input_boost_duration) % ULONG_RANGE),
          max_unboost := b.max_unboost,
          boost_waitq := if b.input_unboost = none then b.boost_waitq + 1 else b.boost_waitq,
          max_boost_expires := b.max_boost_expires,
          state := set_bit INPUT_BOOST b.state } ∧
      test_bit INPUT_BOOST (__cpu_input_boost_kick k p jiffies b).state = true ∧
      test_bit SCREEN_OFF (__cpu_input_boost_kick k p jiffies b).state = false ∧
      test_bit MAX_BOOST (__cpu_input_boost_kick k p jiffies b).state
        = test_bit MAX_BOOST b.state) := by
  constructor
  · intro h
    unfold __cpu_input_boost_kick
    by_cases he : p.enabled = 0
    · rw [if_pos he]
    · rw [if_neg he]
      rcases h with h | h | h
      · exact absurd h he
      · simp [h]
      · simp [h]
  · intro he hs hd
    have e : __cpu_input_boost_kick k p jiffies b =
        { input_unboost :=
            some ((jiffies + k.msecs_to_jiffies p.input_boost_duration) % ULONG_RANGE),
          max_unboost := b.max_unboost,
          boost_waitq := if b.input_unboost = none then b.boost_waitq + 1 else b.boost_waitq,
          max_boost_expires := b.max_boost_expires,
          state := set_bit INPUT_BOOST b.state } := by
      unfold __cpu_input_boost_kick mod_delayed_work wake_up
      simp only [if_neg he, hs, hd, decide_False, Bool.or_self, Bool.false_eq_true, if_false]
      cases b.input_unboost <;> simp
    have hs0 : test_bit 0 b.state = false := hs
    refine ⟨e, ?_, ?_, ?_⟩
    · rw [e, test_bit_set_bit]; simp
    · rw [e, test_bit_set_bit]; simp [INPUT_BOOST, SCREEN_OFF, hs0]
    · rw [e, test_bit_set_bit]; simp [INPUT_BOOST, MAX_BOOST]

/-- C11 at a concrete input: a kick at jiffy 100 from the initial state arms
the input-unboost work for jiffy 164 and wakes the responder once. -/
theorem kick_effect_witness :
    params_unset.enabled ≠ 0 ∧ params_unset.input_boost_duration ≠ 0 ∧
    __cpu_input_boost_kick kernel_hz1000 params_unset 100 boost_drv_g =
      { input_unboost := some 164, max_unboost := none, boost_waitq := 1,
        max_boost_expires := 0, state := 2 } :=
  ⟨by decide, by decide,
   ((kick_effect kernel_hz1000 params_unset 100 boost_drv_g).2
      (by decide) (by decide) (by decide)).1⟩

/-! ## C12: when `kick_max` does nothing -/

/-- C12: if `enabled == 0`, or ScreenOff is set, or the stored
`max_boost_expires` is later than the candidate `jiffies + duration` (the
test `time_after` of line 254; for two counter values less than half the
counter range apart this is the stored value being the larger number), then
`__cpu_input_boost_kick_max` returns the state it was given: flags, expiry,
both timers and the wake-up count. -/
theorem kick_max_noop (k : Kernel) (p : Params) (jiffies ticks : Nat) (b : boost_drv) (d : Nat) :
    ((p.enabled = 0 ∨ test_bit SCREEN_OFF b.state = true ∨
        time_after b.max_boost_expires (candidate_expiry k jiffies d) = true) →
      __cpu_input_boost_kick_max k p jiffies ticks b d = b) ∧
    (b.max_boost_expires < ULONG_RANGE →
      within_half_range b.max_boost_expires (candidate_expiry k jiffies d) →
      candidate_expiry k jiffies d < b.max_boost_expires →
      __cpu_input_boost_kick_max k p jiffies ticks b d = b) := by
  have main : (p.enabled = 0 ∨ test_bit SCREEN_OFF b.state = true ∨
      time_after b.max_boost_expires (candidate_expiry k jiffies d) = true) →
      __cpu_input_boost_kick_max k p jiffies ticks b d = b := by
    intro h
    unfold __cpu_input_boost_kick_max
    unfold candidate_expiry at h
    by_cases he : p.enabled = 0
    · simp only [if_pos he]
    · by_cases hs : test_bit SCREEN_OFF b.state = true
      · simp only [if_neg he, if_pos hs]
      · rcases h with h | h | h
        · exact absurd h he
        · exact absurd h hs
        · simp only [if_neg he, if_neg hs, if_pos h]
  refine ⟨main, ?_⟩
  intro hc hw hlt
  apply main
  right; right
  rw [time_after_eq_of_within _ _ hc (candidate_expiry_lt k jiffies d) hw]
  simpa using hlt

/-- C12 at a concrete input: with the wake boost armed until jiffy 1000, a
`kick_max` of 100 ms at jiffy 30 changes nothing. -/
theorem kick_max_noop_witness :
    candidate_expiry kernel_hz1000 30 100 < drv_after_unblank.max_boost_expires ∧
    __cpu_input_boost_kick_max kernel_hz1000 params_unset 30 0 drv_after_unblank 100
      = drv_after_unblank :=
  ⟨by decide,
   (kick_max_noop kernel_hz1000 params_unset 30 0 drv_after_unblank 100).2
     (by decide) (by decide) (by decide)⟩

/-! ## C13: who clears the boost flags -/

/-- The flags word after one `kick`, whatever the state. -/
theorem kick_state (k : Kernel) (p : Params) (jiffies : Nat) (b : boost_drv) :
    (__cpu_input_boost_kick k p jiffies b).state = b.state ∨
    (__cpu_input_boost_kick k p jiffies b).state = set_bit INPUT_BOOST b.state := by
  unfold __cpu_input_boost_kick mod_delayed_work wake_up
  simp only
  split_ifs <;> simp

/-- Setting a bit keeps every bit that was set. -/
theorem test_bit_set_bit_of_set (n m s : Nat) (h : test_bit m s = true) :
    test_bit m (set_bit n s) = true := by
  rw [test_bit_set_bit, h]; rfl

/-- The flags word after the display callback, whatever the event. -/
theorem msm_drm_notifier_cb_state (k : Kernel) (p : Params) (jiffies ticks : Nat) (b : boost_drv)
    (action : Nat) (blank : Int) :
    (msm_drm_notifier_cb k p jiffies ticks b action blank).1.state = b.state ∨
    (msm_drm_notifier_cb k p jiffies ticks b action blank).1.state = set_bit SCREEN_OFF b.state ∨
    (msm_drm_notifier_cb k p jiffies ticks b action blank).1.state = clear_bit SCREEN_OFF b.state ∨
    (msm_drm_notifier_cb k p jiffies ticks b action blank).1.state
      = set_bit MAX_BOOST (clear_bit SCREEN_OFF b.state) := by
  unfold msm_drm_notifier_cb
  by_cases he : p.enabled = 0
  · simp [he]
  · by_cases ha : action = k.MSM_DRM_EARLY_EVENT_BLANK
    · by_cases hb : blank = k.MSM_DRM_BLANK_UNBLANK
      · simp only [if_neg he, ha, ne_eq, not_true_eq_false, if_false, if_pos hb]
        rcases kick_max_state k p jiffies ticks { b with state := clear_bit SCREEN_OFF b.state }
          p.wake_boost_duration with h | h
        · right; right; left; exact h
        · right; right; right; exact h
      · simp only [if_neg he, ha, ne_eq, not_true_eq_false, if_false, if_neg hb, wake_up]
        right; left; trivial
    · simp [he, ha]

/-- C13: `kick`, `kick_max` and the display power callback (any action, any
blank value) never turn a set InputBoost or MaxBoost bit into a clear one;
`input_unboost_worker` clears InputBoost and leaves MaxBoost and ScreenOff as
they were; `max_unboost_worker` clears MaxBoost and leaves InputBoost and
ScreenOff as they were.  (The frequency-policy callback only reads the flags
word.) -/
theorem boost_flags_cleared_only_by_workers (k : Kernel) (p : Params) (jiffies ticks : Nat)
    (b : boost_drv) :
    (∀ flag, (flag = INPUT_BOOST ∨ flag = MAX_BOOST) → test_bit flag b.state = true →
      test_bit flag (__cpu_input_boost_kick k p jiffies b).state = true ∧
      (∀ d, test_bit flag (__cpu_input_boost_kick_max k p jiffies ticks b d).state = true) ∧
      (∀ action blank,
        test_bit flag (msm_drm_notifier_cb k p jiffies ticks b action blank).1.state = true)) ∧
    (test_bit INPUT_BOOST (input_unboost_worker b).state = false ∧
      test_bit MAX_BOOST (input_unboost_worker b).state = test_bit MAX_BOOST b.state ∧
      test_bit SCREEN_OFF (input_unboost_worker b).state = test_bit SCREEN_OFF b.state) ∧
    (test_bit MAX_BOOST (max_unboost_worker b).state = false ∧
      test_bit INPUT_BOOST (max_unboost_worker b).state = test_bit INPUT_BOOST b.state ∧
      test_bit SCREEN_OFF (max_unboost_worker b).state = test_bit SCREEN_OFF b.state) := by
  refine ⟨?_, ?_, ?_⟩
  · intro flag hflag hset
    have hne : ¬ SCREEN_OFF = flag := by
      rcases hflag with rfl | rfl <;> decide
    have hlt : flag < 64 := by
      rcases hflag with rfl | rfl <;> decide
    have hclr : test_bit flag (clear_bit SCREEN_OFF b.state) = true := by
      rw [test_bit_clear_bit _ _ _ hlt, hset]; simp [hne]
    refine ⟨?_, ?_, ?_⟩
    · rcases kick_state k p jiffies b with h | h
      · rw [h]; exact hset
      · rw [h]; exact test_bit_set_bit_of_set _ _ _ hset
    · intro d
      rcases kick_max_state k p jiffies ticks b d with h | h
      · rw [h]; exact hset
      · rw [h]; exact test_bit_set_bit_of_set _ _ _ hset
    · intro action blank
      rcases msm_drm_notifier_cb_state k p jiffies ticks b action blank with h | h | h | h
      · rw [h]; exact hset
      · rw [h]; exact test_bit_set_bit_of_set _ _ _ hset
      · rw [h]; exact hclr
      · rw [h]; exact test_bit_set_bit_of_set _ _ _ hclr
  · simp only [input_unboost_worker, wake_up]
    refine ⟨?_, ?_, ?_⟩
    · rw [test_bit_clear_bit _ _ _ (by decide)]; simp
    · rw [test_bit_clear_bit _ _ _ (by decide)]; simp [INPUT_BOOST, MAX_BOOST]
    · rw [test_bit_clear_bit _ _ _ (by decide)]; simp [INPUT_BOOST, SCREEN_OFF]
  · simp only [max_unboost_worker, wake_up]
    refine ⟨?_, ?_, ?_⟩
    · rw [test_bit_clear_bit _ _ _ (by decide)]; simp
    · rw [test_bit_clear_bit _ _ _ (by decide)]; simp [INPUT_BOOST, MAX_BOOST]
    · rw [test_bit_clear_bit _ _ _ (by decide)]; simp [MAX_BOOST, SCREEN_OFF]

/-- C13 at a concrete input: with all three flags set, a power-down blank
event keeps MaxBoost set. -/
theorem boost_flags_cleared_only_by_workers_witness :
    test_bit MAX_BOOST (drv_with_flags 7).state = true ∧
    test_bit MAX_BOOST
      (msm_drm_notifier_cb kernel_hz1000 params_unset 10 0 (drv_with_flags 7) 2
        MSM_DRM_BLANK_POWERDOWN).1.state = true :=
  ⟨by decide,
   ((boost_flags_cleared_only_by_workers kernel_hz1000 params_unset 10 0 (drv_with_flags 7)).1
      MAX_BOOST (Or.inr rfl) (by decide)).2.2 2 MSM_DRM_BLANK_POWERDOWN⟩

/-! ## C14: the input-boost floor -/

/-- C14: with `enabled != 0`, ScreenOff and MaxBoost clear and InputBoost set,
for a low-power or performance CPU, or a prime CPU without `skip_prime_cores`,
the floor is `min(f, policy->max)` where `f` is the larger of the group's
input-boost frequency and minimum frequency when that is non-zero, and
`policy->min` otherwise. -/
theorem input_boost_floor (k : Kernel) (p : Params) (b : boost_drv) (policy : cpufreq_policy)
    (he : p.enabled ≠ 0) (hso : test_bit SCREEN_OFF b.state = false)
    (hmb : test_bit MAX_BOOST b.state = false) (hib : test_bit INPUT_BOOST b.state = true)
    (hg : core_group policy.cpu ≠ CoreGroup.Prime ∨ p.skip_prime_cores = false) :
    resolved_floor k p b policy =
      min (if max (p.input_boost_freq (core_group policy.cpu))
                  (p.min_freq (core_group policy.cpu)) = 0
           then policy.min
           else max (p.input_boost_freq (core_group policy.cpu))
                    (p.min_freq (core_group policy.cpu)))
          policy.max := by
  rw [resolved_floor_enabled k p b policy he]
  simp only [hso, hmb, hib, Bool.false_eq_true, if_false, if_true]
  unfold get_input_boost_freq
  unfold core_group at hg ⊢
  cases hl : cpumask_test_cpu policy.cpu real_lp_cpu_bits <;>
    cases hp : cpumask_test_cpu policy.cpu real_perf_cpu_bits <;>
    cases hs : p.skip_prime_cores <;>
    simp [hl, hp, hs, Params.input_boost_freq, Params.min_freq] at hg ⊢

/-- C14 at the spec's scenario: performance group, 300..2000 MHz hardware
range, input boost 1200 MHz, minimum 400 MHz, InputBoost only: 1200 MHz under
a policy maximum of 2000 MHz and 1000 MHz under a policy maximum of 1000 MHz. -/
theorem input_boost_floor_witness :
    resolved_floor kernel_hz1000 params_scenario (drv_with_flags 2) policy_perf = 1200 ∧
    resolved_floor kernel_hz1000 params_scenario (drv_with_flags 2) policy_perf_capped = 1000 :=
  ⟨input_boost_floor kernel_hz1000 params_scenario (drv_with_flags 2) policy_perf
      (by decide) (by decide) (by decide) (by decide) (Or.inl (by decide)),
   input_boost_floor kernel_hz1000 params_scenario (drv_with_flags 2) policy_perf_capped
      (by decide) (by decide) (by decide) (by decide) (Or.inl (by decide))⟩

/-! ## C15: the max-boost fall-back chain -/

/-- C15: with `enabled != 0`, ScreenOff clear and MaxBoost set, for a
low-power or performance CPU, or a prime CPU without `skip_prime_cores`, the
floor is `min(f, policy->max)` where `f` is the group's max-boost frequency if
non-zero, else its input-boost frequency if non-zero, else
`policy->cpuinfo.max_freq`; the three `min_freq` settings do not enter the
result. -/
theorem max_boost_floor (k : Kernel) (p : Params) (b : boost_drv) (policy : cpufreq_policy)
    (he : p.enabled ≠ 0) (hso : test_bit SCREEN_OFF b.state = false)
    (hmb : test_bit MAX_BOOST b.state = true)
    (hg : core_group policy.cpu ≠ CoreGroup.Prime ∨ p.skip_prime_cores = false) :
    resolved_floor k p b policy =
      min (if p.max_boost_freq (core_group policy.cpu) ≠ 0
             then p.max_boost_freq (core_group policy.cpu)
           else if p.input_boost_freq (core_group policy.cpu) ≠ 0
             then p.input_boost_freq (core_group policy.cpu)
           else policy.cpuinfo.max_freq)
          policy.max ∧
    (∀ m1 m2 m3 : Nat,
      resolved_floor k { p with min_freq_lp := m1, min_freq_hp := m2, min_freq_prime := m3 }
        b policy = resolved_floor k p b policy) := by
  constructor
  · rw [resolved_floor_enabled k p b policy he]
    simp only [hso, hmb, Bool.false_eq_true, if_false, if_true]
    unfold get_max_boost_freq
    unfold core_group at hg ⊢
    cases hl : cpumask_test_cpu policy.cpu real_lp_cpu_bits <;>
      cases hp : cpumask_test_cpu policy.cpu real_perf_cpu_bits <;>
      cases hs : p.skip_prime_cores <;>
      simp [hl, hp, hs, Params.input_boost_freq, Params.max_boost_freq] at hg ⊢ <;>
      split_ifs <;> simp_all
  · intro m1 m2 m3
    have h1 := resolved_floor_enabled k
      { p with min_freq_lp := m1, min_freq_hp := m2, min_freq_prime := m3 } b policy he
    rw [h1, resolved_floor_enabled k p b policy he]
    simp only [hso, hmb, Bool.false_eq_true, if_false, if_true]
    rfl

/-- C15 at a concrete input: performance group with no max-boost frequency
configured falls back to the input-boost frequency of 1200 MHz. -/
theorem max_boost_floor_witness :
    resolved_floor kernel_hz1000 params_scenario (drv_with_flags 6) policy_perf = 1200 :=
  (max_boost_floor kernel_hz1000 params_scenario (drv_with_flags 6) policy_perf
      (by decide) (by decide) (by decide) (Or.inl (by decide))).1

/-! ## C16: the idle-min floor -/

/-- C16: with `enabled != 0` and none of the three flags set, the floor is
`max(m, policy->cpuinfo.min_freq)` where `m` is the group's minimum frequency,
replaced by the hardware minimum for a prime CPU under `skip_prime_cores`. -/
theorem idle_min_floor (k : Kernel) (p : Params) (b : boost_drv) (policy : cpufreq_policy)
    (he : p.enabled ≠ 0) (hso : test_bit SCREEN_OFF b.state = false)
    (hmb : test_bit MAX_BOOST b.state = false) (hib : test_bit INPUT_BOOST b.state = false) :
    resolved_floor k p b policy =
      max (if core_group policy.cpu = CoreGroup.Prime ∧ p.skip_prime_cores = true
             then policy.cpuinfo.min_freq
           else p.min_freq (core_group policy.cpu))
          policy.cpuinfo.min_freq := by
  rw [resolved_floor_enabled k p b policy he]
  simp only [hso, hmb, hib, Bool.false_eq_true, if_false]
  unfold get_min_freq core_group
  cases hl : cpumask_test_cpu policy.cpu real_lp_cpu_bits <;>
    cases hp : cpumask_test_cpu policy.cpu real_perf_cpu_bits <;>
    cases hs : p.skip_prime_cores <;>
    simp [Params.min_freq]

/-- C16 at the spec's scenario: performance group, hardware minimum 300 MHz,
minimum frequency 400 MHz, no flag set: 400 MHz. -/
theorem idle_min_floor_witness :
    resolved_floor kernel_hz1000 params_scenario (drv_with_flags 0) policy_perf = 400 :=
  idle_min_floor kernel_hz1000 params_scenario (drv_with_flags 0) policy_perf
    (by decide) (by decide) (by decide) (by decide)

/-! ## C19: `get_idle_freq` clamps with `min` -/

/-- C19: `get_idle_freq` returns `min(f, policy->cpuinfo.min_freq)` where `f`
is the group's idle frequency, or the hardware minimum when that is zero or
the CPU is prime under `skip_prime_cores`.  Hence the screen-off floor never
exceeds the hardware minimum and equals it whenever the configured idle
frequency is zero or at least the hardware minimum. -/
theorem get_idle_freq_clamps_with_min (p : Params) (policy : cpufreq_policy) :
    get_idle_freq p policy =
      min (if (core_group policy.cpu = CoreGroup.Prime ∧ p.skip_prime_cores = true) ∨
              p.idle_freq (core_group policy.cpu) = 0
             then policy.cpuinfo.min_freq
           else p.idle_freq (core_group policy.cpu))
          policy.cpuinfo.min_freq ∧
    (∀ (k : Kernel) (b : boost_drv), p.enabled ≠ 0 → test_bit SCREEN_OFF b.state = true →
      resolved_floor k p b policy = get_idle_freq p policy ∧
      resolved_floor k p b policy ≤ policy.cpuinfo.min_freq ∧
      ((p.idle_freq (core_group policy.cpu) = 0 ∨
          policy.cpuinfo.min_freq ≤ p.idle_freq (core_group policy.cpu)) →
        resolved_floor k p b policy = policy.cpuinfo.min_freq)) := by
  have e : get_idle_freq p policy =
      min (if (core_group policy.cpu = CoreGroup.Prime ∧ p.skip_prime_cores = true) ∨
              p.idle_freq (core_group policy.cpu) = 0
             then policy.cpuinfo.min_freq
           else p.idle_freq (core_group policy.cpu))
          policy.cpuinfo.min_freq := by
    unfold get_idle_freq core_group
    cases hl : cpumask_test_cpu policy.cpu real_lp_cpu_bits <;>
      cases hp : cpumask_test_cpu policy.cpu real_perf_cpu_bits <;>
      cases hs : p.skip_prime_cores <;>
      simp [Params.idle_freq]
  refine ⟨e, ?_⟩
  intro k b he hso
  rw [resolved_floor_enabled k p b policy he, if_pos hso]
  refine ⟨rfl, ?_, ?_⟩
  · rw [e]; exact Nat.min_le_right _ _
  · intro h
    rw [e]
    split_ifs with hc
    · exact Nat.min_self _
    · rcases h with h | h
      · exact absurd (Or.inr h) hc
      · exact Nat.min_eq_right h

/-- C19 at a concrete input: performance idle frequency 500 MHz above the
hardware minimum of 300 MHz; with ScreenOff set the floor is 300 MHz. -/
theorem get_idle_freq_clamps_with_min_witness :
    params_idle_500.enabled ≠ 0 ∧
    policy_perf.cpuinfo.min_freq ≤ params_idle_500.idle_freq (core_group policy_perf.cpu) ∧
    resolved_floor kernel_hz1000 params_idle_500 (drv_with_flags 5) policy_perf
      = policy_perf.cpuinfo.min_freq :=
  ⟨by decide, by decide,
   ((get_idle_freq_clamps_with_min params_idle_500 policy_perf).2 kernel_hz1000
      (drv_with_flags 5) (by decide) (by decide)).2.2 (Or.inr (by decide))⟩

/-! ## C17: start-up unwinding -/

/-- An error pointer converts to a non-zero `int`. -/
theorem long_to_int_PTR_ERR_ne_zero (ptr : Nat) (hp : ptr < ULONG_RANGE)
    (he : IS_ERR ptr = true) : long_to_int (PTR_ERR ptr) ≠ 0 := by
  unfold IS_ERR at he
  unfold long_to_int PTR_ERR
  rw [Nat.mod_eq_of_lt hp]
  unfold ULONG_RANGE BITS_PER_LONG MAX_ERRNO at *
  simp only [decide_eq_true_eq] at he
  norm_num at he hp ⊢
  have h1 : ¬ ptr < 9223372036854775808 := by omega
  rw [if_neg h1]
  omega

/-- C17: started with nothing registered, if the first start-up call to fail
is call number k (a non-zero return code for the three registrations, an
error pointer for the thread) then `cpu_input_boost_init` returns that call's
non-zero error code and nothing is left registered; if all four succeed it
returns 0 with the three registrations live and the thread running. -/
theorem cpu_input_boost_init_unwinds (o : InitOutcomes)
    (hptr : o.kthread_run_perf_critical < ULONG_RANGE) :
    (o.cpufreq_register_notifier ≠ 0 →
      cpu_input_boost_init o nothing_registered
        = (o.cpufreq_register_notifier, nothing_registered)) ∧
    (o.cpufreq_register_notifier = 0 → o.input_register_handler ≠ 0 →
      cpu_input_boost_init o nothing_registered
        = (o.input_register_handler, nothing_registered)) ∧
    (o.cpufreq_register_notifier = 0 → o.input_register_handler = 0 →
      o.msm_drm_register_client ≠ 0 →
      cpu_input_boost_init o nothing_registered
        = (o.msm_drm_register_client, nothing_registered)) ∧
    (o.cpufreq_register_notifier = 0 → o.input_register_handler = 0 →
      o.msm_drm_register_client = 0 → IS_ERR o.kthread_run_perf_critical = true →
      cpu_input_boost_init o nothing_registered
        = (long_to_int (PTR_ERR o.kthread_run_perf_critical), nothing_registered) ∧
      long_to_int (PTR_ERR o.kthread_run_perf_critical) ≠ 0) ∧
    (o.cpufreq_register_notifier = 0 → o.input_register_handler = 0 →
      o.msm_drm_register_client = 0 → IS_ERR o.kthread_run_perf_critical = false →
      cpu_input_boost_init o nothing_registered
        = (0, { cpu_notif := true, input_handler := true, msm_drm_notif := true,
                cpu_boostd := true })) := by
  refine ⟨?_, ?_, ?_, ?_, ?_⟩
  · intro h1
    simp [cpu_input_boost_init, cpufreq_register_notifier, h1]
  · intro h1 h2
    simp [cpu_input_boost_init, cpufreq_register_notifier, input_register_handler,
      unregister_cpu_notif, cpufreq_unregister_notifier, nothing_registered, h1, h2]
  · intro h1 h2 h3
    simp [cpu_input_boost_init, cpufreq_register_notifier, input_register_handler,
      msm_drm_register_client, unregister_handler, unregister_cpu_notif,
      cpufreq_unregister_notifier, input_unregister_handler, nothing_registered, h1, h2, h3]
  · intro h1 h2 h3 h4
    refine ⟨?_, long_to_int_PTR_ERR_ne_zero _ hptr h4⟩
    simp [cpu_input_boost_init, cpufreq_register_notifier, input_register_handler,
      msm_drm_register_client, kthread_run_perf_critical, unregister_fb_notif,
      unregister_handler, unregister_cpu_notif, cpufreq_unregister_notifier,
      input_unregister_handler, msm_drm_unregister_client, nothing_registered, h1, h2, h3, h4]
  · intro h1 h2 h3 h4
    simp [cpu_input_boost_init, cpufreq_register_notifier, input_register_handler,
      msm_drm_register_client, kthread_run_perf_critical, nothing_registered, h1, h2, h3, h4]

/-- C17 at a concrete input: the three registrations succeed and the thread
creation returns `ERR_PTR(-ENOMEM)`; start-up returns -12 with nothing left
registered. -/
theorem cpu_input_boost_init_unwinds_witness :
    IS_ERR err_ptr_enomem = true ∧
    cpu_input_boost_init
      { cpufreq_register_notifier := 0, input_register_handler := 0,
        msm_drm_register_client := 0, kthread_run_perf_critical := err_ptr_enomem }
      nothing_registered = (-12, nothing_registered) :=
  ⟨by decide,
   ((cpu_input_boost_init_unwinds
      { cpufreq_register_notifier := 0, input_register_handler := 0,
        msm_drm_register_client := 0, kthread_run_perf_critical := err_ptr_enomem }
      (by decide)).2.2.2.1 rfl rfl rfl (by decide)).1⟩

/-! ## C20: no stuck and no early-cleared boost -/

theorem half_range_lt : ULONG_RANGE / 2 < ULONG_RANGE := by decide

/-- The timers and the expiry after one `kick`: only the input-unboost work
can change, and it ends pending when InputBoost ends set. -/
theorem kick_frame (k : Kernel) (p : Params) (jiffies : Nat) (b : boost_drv) :
    (__cpu_input_boost_kick k p jiffies b).max_unboost = b.max_unboost ∧
    (__cpu_input_boost_kick k p jiffies b).max_boost_expires = b.max_boost_expires ∧
    (__cpu_input_boost_kick k p jiffies b = b ∨
      ((__cpu_input_boost_kick k p jiffies b).input_unboost.isSome = true ∧
       (__cpu_input_boost_kick k p jiffies b).state = set_bit INPUT_BOOST b.state)) := by
  unfold __cpu_input_boost_kick mod_delayed_work wake_up
  simp only
  split_ifs <;> simp

/-- The timers and the expiry after one `kick_max`: either nothing changes or
MaxBoost is set, the candidate of line 251 is stored and the max-unboost work
is pending for the time line 260 computes. -/
theorem kick_max_frame (k : Kernel) (p : Params) (jiffies ticks : Nat) (b : boost_drv)
    (d : Nat) :
    __cpu_input_boost_kick_max k p jiffies ticks b d = b ∨
    ((__cpu_input_boost_kick_max k p jiffies ticks b d).input_unboost = b.input_unboost ∧
     (__cpu_input_boost_kick_max k p jiffies ticks b d).state = set_bit MAX_BOOST b.state ∧
     (__cpu_input_boost_kick_max k p jiffies ticks b d).max_boost_expires
       = (jiffies + k.msecs_to_jiffies d) % ULONG_RANGE ∧
     (__cpu_input_boost_kick_max k p jiffies ticks b d).max_unboost
       = some ((jiffies + ticks + k.msecs_to_jiffies d) % ULONG_RANGE)) := by
  unfold __cpu_input_boost_kick_max mod_delayed_work wake_up atomic_long_cmpxchg
  simp only
  split_ifs <;> simp

/-- The timer set at line 260 expires `ticks` after the stored candidate. -/
theorem deadline_eq_expiry_add_ticks (jiffies ticks delay : Nat) :
    (jiffies + ticks + delay) % ULONG_RANGE
      = ((jiffies + delay) % ULONG_RANGE + ticks) % ULONG_RANGE := by
  rw [Nat.mod_add_mod]
  congr 1
  omega

/-- A value less than half the counter range after another is not before it. -/
theorem time_after_add_ticks (a t : Nat) (ha : a < ULONG_RANGE) (ht : t < ULONG_RANGE / 2) :
    time_after a ((a + t) % ULONG_RANGE) = false := by
  have hR := half_range_lt
  unfold time_after
  rw [Nat.mod_mod, Nat.mod_eq_of_lt ha, Nat.mod_add_mod]
  have e : a + t + (ULONG_RANGE - a) = t + ULONG_RANGE := by omega
  rw [e, Nat.add_mod_right, Nat.mod_eq_of_lt (by omega)]
  simp only [decide_eq_false_iff_not]
  omega

theorem boost_scheduled_mono (s t : Nat) (b : boost_drv) (hst : s ≤ t)
    (h : boost_scheduled s b) : boost_scheduled t b := by
  obtain ⟨h0, h1, h2, h3⟩ := h
  refine ⟨h0, h1, h2, ?_⟩
  intro d hd
  obtain ⟨u, hu, e⟩ := h3 d hd
  exact ⟨u, le_trans hu hst, e⟩

theorem boost_scheduled_kick (slack : Nat) (k : Kernel) (p : Params) (jiffies : Nat)
    (b : boost_drv) (h : boost_scheduled slack b) :
    boost_scheduled slack (__cpu_input_boost_kick k p jiffies b) := by
  obtain ⟨f1, f2, f3⟩ := kick_frame k p jiffies b
  rcases f3 with f3 | ⟨f3, f4⟩
  · rw [f3]; exact h
  · obtain ⟨h0, _, h2, h3⟩ := h
    refine ⟨f2 ▸ h0, fun _ => f3, ?_, ?_⟩
    · intro hm
      rw [f1]
      apply h2
      rw [f4, test_bit_set_bit] at hm
      simpa [INPUT_BOOST, MAX_BOOST] using hm
    · intro d hd
      rw [f1] at hd
      rw [f2]
      exact h3 d hd

theorem boost_scheduled_kick_max (slack : Nat) (k : Kernel) (p : Params)
    (jiffies ticks : Nat) (b : boost_drv) (d : Nat) (ht : ticks ≤ slack)
    (h : boost_scheduled slack b) :
    boost_scheduled slack (__cpu_input_boost_kick_max k p jiffies ticks b d) := by
  rcases kick_max_frame k p jiffies ticks b d with f | ⟨f1, f2, f3, f4⟩
  · rw [f]; exact h
  · obtain ⟨_, h1, _, _⟩ := h
    refine ⟨?_, ?_, ?_, ?_⟩
    · rw [f3]
      exact Nat.mod_lt _ (by unfold ULONG_RANGE BITS_PER_LONG; norm_num)
    · intro hi
      rw [f1]
      apply h1
      rw [f2, test_bit_set_bit] at hi
      simpa [INPUT_BOOST, MAX_BOOST] using hi
    · intro _
      rw [f4]; rfl
    · intro d' hd'
      rw [f4] at hd'
      cases hd'
      exact ⟨ticks, ht, by rw [f3]; exact deadline_eq_expiry_add_ticks _ _ _⟩

/-- Changing ScreenOff alone keeps the boosts scheduled. -/
theorem boost_scheduled_of_boost_bits (slack : Nat) (b : boost_drv) (flags : Nat)
    (hi : test_bit INPUT_BOOST flags = test_bit INPUT_BOOST b.state)
    (hm : test_bit MAX_BOOST flags = test_bit MAX_BOOST b.state)
    (h : boost_scheduled slack b) : boost_scheduled slack { b with state := flags } := by
  obtain ⟨h0, h1, h2, h3⟩ := h
  exact ⟨h0, fun x => h1 (hi ▸ x), fun x => h2 (hm ▸ x), h3⟩

theorem boost_scheduled_display (slack : Nat) (k : Kernel) (p : Params)
    (jiffies ticks : Nat) (b : boost_drv) (action : Nat) (blank : Int)
    (ht : ticks ≤ slack) (h : boost_scheduled slack b) :
    boost_scheduled slack (msm_drm_notifier_cb k p jiffies ticks b action blank).1 := by
  unfold msm_drm_notifier_cb
  by_cases he : p.enabled = 0
  · simpa [he] using h
  · by_cases ha : action = k.MSM_DRM_EARLY_EVENT_BLANK
    · by_cases hb : blank = k.MSM_DRM_BLANK_UNBLANK
      · simp only [if_neg he, ha, ne_eq, not_true_eq_false, if_false, if_pos hb]
        apply boost_scheduled_kick_max slack k p jiffies ticks _ _ ht
        apply boost_scheduled_of_boost_bits slack _ _ _ _ h
        · rw [test_bit_clear_bit _ _ _ (by decide)]; simp [SCREEN_OFF, INPUT_BOOST]
        · rw [test_bit_clear_bit _ _ _ (by decide)]; simp [SCREEN_OFF, MAX_BOOST]
      · simp only [if_neg he, ha, ne_eq, not_true_eq_false, if_false, if_neg hb, wake_up]
        apply boost_scheduled_of_boost_bits slack b _ _ _ h
        · rw [test_bit_set_bit]; simp [SCREEN_OFF, INPUT_BOOST]
        · rw [test_bit_set_bit]; simp [SCREEN_OFF, MAX_BOOST]
    · simpa [he, ha] using h

theorem boost_scheduled_apply_event (slack : Nat) (k : Kernel) (b : boost_drv) (e : Event)
    (ht : event_ticks e ≤ slack) (h : boost_scheduled slack b) :
    boost_scheduled slack (apply_event k b e) := by
  cases e with
  | kick p jiffies => exact boost_scheduled_kick slack k p jiffies b h
  | kick_max p jiffies ticks d =>
    exact boost_scheduled_kick_max slack k p jiffies ticks b d ht h
  | display p jiffies ticks action blank =>
    exact boost_scheduled_display slack k p jiffies ticks b action blank ht h
  | input_unboost_expires =>
    unfold apply_event
    by_cases hp : b.input_unboost.isSome = true
    · obtain ⟨h0, _, h2, h3⟩ := h
      simp only [hp, if_true, fire_input_unboost, input_unboost_worker, wake_up]
      refine ⟨h0, ?_, ?_, h3⟩
      · intro hi
        rw [test_bit_clear_bit _ _ _ (by decide)] at hi
        simp at hi
      · intro hm
        apply h2
        rw [test_bit_clear_bit _ _ _ (by decide)] at hm
        simpa [INPUT_BOOST, MAX_BOOST] using hm
    · simpa [hp] using h
  | max_unboost_expires =>
    unfold apply_event
    by_cases hp : b.max_unboost.isSome = true
    · obtain ⟨h0, h1, _, _⟩ := h
      simp only [hp, if_true, fire_max_unboost, max_unboost_worker, wake_up]
      refine ⟨h0, ?_, ?_, ?_⟩
      · intro hi
        apply h1
        rw [test_bit_clear_bit _ _ _ (by decide)] at hi
        simpa [INPUT_BOOST, MAX_BOOST] using hi
      · intro hm
        rw [test_bit_clear_bit _ _ _ (by decide)] at hm
        simp at hm
      · intro d hd
        cases hd
    · simpa [hp] using h

theorem boost_scheduled_run_events (slack : Nat) (k : Kernel) (events : List Event) :
    ∀ b, (∀ e ∈ events, event_ticks e ≤ slack) → boost_scheduled slack b →
      boost_scheduled slack (run_events k b events) := by
  induction events with
  | nil => intro b _ h; exact h
  | cons e rest ih =>
    intro b ht h
    exact ih _ (fun e' he' => ht e' (List.mem_cons_of_mem _ he'))
      (boost_scheduled_apply_event slack k b e (ht e (List.mem_cons_self _ _)) h)

/-- A trigger (kick, kick_max, display event) keeps a set boost flag set. -/
theorem trigger_keeps_boost_flag (k : Kernel) (b : boost_drv) (flag : Nat)
    (hflag : flag = INPUT_BOOST ∨ flag = MAX_BOOST) (hset : test_bit flag b.state = true) :
    (∀ p jiffies, test_bit flag (apply_event k b (Event.kick p jiffies)).state = true) ∧
    (∀ p jiffies ticks d,
      test_bit flag (apply_event k b (Event.kick_max p jiffies ticks d)).state = true) ∧
    (∀ p jiffies ticks action blank,
      test_bit flag (apply_event k b (Event.display p jiffies ticks action blank)).state
        = true) := by
  have hne : ¬ SCREEN_OFF = flag := by
    rcases hflag with rfl | rfl <;> decide
  have hlt : flag < 64 := by
    rcases hflag with rfl | rfl <;> decide
  have hclr : test_bit flag (clear_bit SCREEN_OFF b.state) = true := by
    rw [test_bit_clear_bit _ _ _ hlt, hset]; simp [hne]
  refine ⟨?_, ?_, ?_⟩
  · intro p jiffies
    show test_bit flag (__cpu_input_boost_kick k p jiffies b).state = true
    rcases kick_state k p jiffies b with h | h
    · rw [h]; exact hset
    · rw [h]; exact test_bit_set_bit_of_set _ _ _ hset
  · intro p jiffies ticks d
    show test_bit flag (__cpu_input_boost_kick_max k p jiffies ticks b d).state = true
    rcases kick_max_state k p jiffies ticks b d with h | h
    · rw [h]; exact hset
    · rw [h]; exact test_bit_set_bit_of_set _ _ _ hset
  · intro p jiffies ticks action blank
    show test_bit flag (msm_drm_notifier_cb k p jiffies ticks b action blank).1.state = true
    rcases msm_drm_notifier_cb_state k p jiffies ticks b action blank with h | h | h | h
    · rw [h]; exact hset
    · rw [h]; exact test_bit_set_bit_of_set _ _ _ hset
    · rw [h]; exact hclr
    · rw [h]; exact test_bit_set_bit_of_set _ _ _ hclr

/-- C20 fails as stated: when the counter ticks between the reading of line
251 and the one `mod_delayed_work` makes at line 260, the max-unboost work is
pending for jiffy 1001 while the stored `max_boost_expires` is 1000. -/
theorem deadline_exceeds_expiry_after_tick :
    (run_events kernel_hz1000 boost_drv_g events_with_tick).max_boost_expires = 1000 ∧
    (run_events kernel_hz1000 boost_drv_g events_with_tick).max_unboost = some 1001 ∧
    ¬ (∀ d, (run_events kernel_hz1000 boost_drv_g events_with_tick).max_unboost = some d →
        d = (run_events kernel_hz1000 boost_drv_g events_with_tick).max_boost_expires) := by
  refine ⟨by decide, by decide, ?_⟩
  intro h
  exact absurd (h 1001 (by decide)) (by decide)

/-- C20 as amended: in every state reached from the initial state by a
sequence of kicks, kick_max calls, display events and expiries of pending
delayed works, in which the counter advances by at most `slack` ticks between
the two readings of any one `kick_max`, InputBoost is set only if the
input-unboost work is pending, MaxBoost is set only if the max-unboost work is
pending, and a pending max-unboost work expires at the stored
`max_boost_expires` plus at most `slack` ticks: at the stored expiry itself
when `slack` is zero, and never before it when `slack` is below half the
counter range.  The only operation that turns a set MaxBoost clear is the
expiry of that pending work, and the only operation that turns a set
InputBoost clear is the expiry of the pending input-unboost work. -/
theorem no_stuck_or_early_cleared_boost (k : Kernel) (events : List Event) (slack : Nat)
    (hticks : ∀ e ∈ events, event_ticks e ≤ slack) :
    (test_bit INPUT_BOOST (run_events k boost_drv_g events).state = true →
      (run_events k boost_drv_g events).input_unboost.isSome = true) ∧
    (test_bit MAX_BOOST (run_events k boost_drv_g events).state = true →
      (run_events k boost_drv_g events).max_unboost.isSome = true) ∧
    (∀ d, (run_events k boost_drv_g events).max_unboost = some d →
      (∃ t, t ≤ slack ∧
        d = ((run_events k boost_drv_g events).max_boost_expires + t) % ULONG_RANGE) ∧
      (slack < ULONG_RANGE / 2 →
        time_after (run_events k boost_drv_g events).max_boost_expires d = false) ∧
      (slack = 0 → d = (run_events k boost_drv_g events).max_boost_expires)) ∧
    (∀ e, test_bit MAX_BOOST (run_events k boost_drv_g events).state = true →
      test_bit MAX_BOOST (apply_event k (run_events k boost_drv_g events) e).state = false →
      e = Event.max_unboost_expires ∧
      ∃ d, (run_events k boost_drv_g events).max_unboost = some d ∧
        ∃ t, t ≤ slack ∧
          d = ((run_events k boost_drv_g events).max_boost_expires + t) % ULONG_RANGE) ∧
    (∀ e, test_bit INPUT_BOOST (run_events k boost_drv_g events).state = true →
      test_bit INPUT_BOOST (apply_event k (run_events k boost_drv_g events) e).state = false →
      e = Event.input_unboost_expires ∧
      (run_events k boost_drv_g events).input_unboost.isSome = true) := by
  have hinit : boost_scheduled slack boost_drv_g := by
    refine ⟨by decide, ?_, ?_, ?_⟩
    · intro h; exact absurd h (by decide)
    · intro h; exact absurd h (by decide)
    · intro d hd; cases hd
  have hinv := boost_scheduled_run_events slack k events boost_drv_g hticks hinit
  generalize run_events k boost_drv_g events = b at hinv
  obtain ⟨h0, h1, h2, h3⟩ := hinv
  refine ⟨h1, h2, ?_, ?_, ?_⟩
  · intro d hd
    obtain ⟨t, ht, e⟩ := h3 d hd
    refine ⟨⟨t, ht, e⟩, ?_, ?_⟩
    · intro hs
      rw [e]
      exact time_after_add_ticks _ t h0 (by omega)
    · intro hs
      have ht0 : t = 0 := by omega
      rw [e, ht0, Nat.add_zero, Nat.mod_eq_of_lt h0]
  · intro e hset hclr
    obtain ⟨t1, t2, t3⟩ := trigger_keeps_boost_flag k b MAX_BOOST (Or.inr rfl) hset
    cases e with
    | kick p jiffies => rw [t1 p jiffies] at hclr; cases hclr
    | kick_max p jiffies ticks d => rw [t2 p jiffies ticks d] at hclr; cases hclr
    | display p jiffies ticks action blank =>
      rw [t3 p jiffies ticks action blank] at hclr; cases hclr
    | input_unboost_expires =>
      exfalso
      unfold apply_event at hclr
      by_cases hp : b.input_unboost.isSome = true
      · simp only [hp, if_true, fire_input_unboost, input_unboost_worker, wake_up] at hclr
        rw [test_bit_clear_bit _ _ _ (by decide), hset] at hclr
        simp [INPUT_BOOST, MAX_BOOST] at hclr
      · simp only [hp, Bool.false_eq_true, if_false] at hclr
        rw [hset] at hclr; cases hclr
    | max_unboost_expires =>
      refine ⟨rfl, ?_⟩
      have hp := h2 hset
      cases hm : b.max_unboost with
      | none => rw [hm] at hp; cases hp
      | some d => exact ⟨d, rfl, h3 d hm⟩
  · intro e hset hclr
    obtain ⟨t1, t2, t3⟩ := trigger_keeps_boost_flag k b INPUT_BOOST (Or.inl rfl) hset
    cases e with
    | kick p jiffies => rw [t1 p jiffies] at hclr; cases hclr
    | kick_max p jiffies ticks d => rw [t2 p jiffies ticks d] at hclr; cases hclr
    | display p jiffies ticks action blank =>
      rw [t3 p jiffies ticks action blank] at hclr; cases hclr
    | input_unboost_expires => exact ⟨rfl, h1 hset⟩
    | max_unboost_expires =>
      exfalso
      unfold apply_event at hclr
      by_cases hp : b.max_unboost.isSome = true
      · simp only [hp, if_true, fire_max_unboost, max_unboost_worker, wake_up] at hclr
        rw [test_bit_clear_bit _ _ _ (by decide), hset] at hclr
        simp [INPUT_BOOST, MAX_BOOST] at hclr
      · simp only [hp, Bool.false_eq_true, if_false] at hclr
        rw [hset] at hclr; cases hclr

/-- C20 as amended, at two concrete runs.  With one tick inside the
`kick_max`, MaxBoost is set, the work is pending for jiffy 1001 and that is
not before the stored expiry 1000; in the run without ticks (kick, wake boost,
blank, unblank, input-unboost expiry) the pending work expires at the stored
expiry 1020. -/
theorem no_stuck_or_early_cleared_boost_witness :
    (∀ e ∈ events_with_tick, event_ticks e ≤ 1) ∧
    test_bit MAX_BOOST (run_events kernel_hz1000 boost_drv_g events_with_tick).state = true ∧
    (run_events kernel_hz1000 boost_drv_g events_with_tick).max_unboost.isSome = true ∧
    time_after (run_events kernel_hz1000 boost_drv_g events_with_tick).max_boost_expires 1001
      = false ∧
    (∀ e ∈ events_example, event_ticks e ≤ 0) ∧
    (run_events kernel_hz1000 boost_drv_g events_example).max_unboost = some 1020 ∧
    1020 = (run_events kernel_hz1000 boost_drv_g events_example).max_boost_expires :=
  ⟨by decide, by decide,
   (no_stuck_or_early_cleared_boost kernel_hz1000 events_with_tick 1 (by decide)).2.1
     (by decide),
   ((no_stuck_or_early_cleared_boost kernel_hz1000 events_with_tick 1 (by decide)).2.2.1
     1001 (by decide)).2.1 (by decide),
   by decide, by decide,
   ((no_stuck_or_early_cleared_boost kernel_hz1000 events_example 0 (by decide)).2.2.1
     1020 (by decide)).2.2 rfl⟩

/-! ## C18: concurrent `kick_max` callers -/

/-- Below half the counter range `time_after` is the order of the numbers. -/
theorem time_after_of_lt_half (a c : Nat) (ha : a < ULONG_RANGE / 2)
    (hc : c < ULONG_RANGE / 2) : time_after a c = decide (c < a) := by
  have h := half_range_lt
  apply time_after_eq_of_within a c (by omega) (by omega)
  unfold within_half_range
  omega

theorem caller_ok_mono (e0 v w : Nat) (c : KickMaxCaller) (hvw : v ≤ w)
    (h : caller_ok e0 v c) : caller_ok e0 w c := by
  unfold caller_ok at *
  cases hpc : c.pc <;> simp only [hpc] at h ⊢ <;> omega

/-- What one atomic step of a caller preserves. -/
theorem caller_step_spec (e0 jiffies v : Nat) (c : KickMaxCaller)
    (hv : v < ULONG_RANGE / 2) (he : e0 ≤ v) (hc : caller_ok e0 v c)
    (hj : jiffies + c.boost_jiffies < ULONG_RANGE / 2) :
    v ≤ (caller_step jiffies v c).1 ∧
    (caller_step jiffies v c).1 < ULONG_RANGE / 2 ∧
    caller_ok e0 (caller_step jiffies v c).1 (caller_step jiffies v c).2 ∧
    (caller_step jiffies v c).2.boost_jiffies = c.boost_jiffies ∧
    ((caller_step jiffies v c).1 = v ∨
      (caller_step jiffies v c).2.pc = CallerPc.updated (caller_step jiffies v c).1) ∧
    (∀ n, c.pc = CallerPc.updated n → (caller_step jiffies v c).2.pc = CallerPc.updated n) := by
  have hR := half_range_lt
  unfold caller_ok at hc
  unfold caller_step caller_ok
  cases hpc : c.pc with
  | at_read =>
    simp only [hpc] at hc ⊢
    have hm : (jiffies + c.boost_jiffies) % ULONG_RANGE = jiffies + c.boost_jiffies :=
      Nat.mod_eq_of_lt (by omega)
    rw [hm]
    refine ⟨le_refl _, hv, ⟨he, le_refl _, hj⟩, trivial, Or.inl trivial, ?_⟩
    intro n hn; cases hn
  | at_compare curr new =>
    simp only [hpc] at hc ⊢
    obtain ⟨h1, h2, h3⟩ := hc
    rw [time_after_of_lt_half curr new (by omega) h3]
    by_cases hlt : new < curr
    · simp only [hlt, decide_True, if_true]
      refine ⟨le_refl _, hv, ⟨h1, h2, trivial⟩, trivial, Or.inl trivial, ?_⟩
      intro n hn; cases hn
    · simp only [hlt, decide_False, Bool.false_eq_true, if_false]
      refine ⟨le_refl _, hv, ⟨h1, h2, by omega, h3⟩, trivial, Or.inl trivial, ?_⟩
      intro n hn; cases hn
  | at_cmpxchg curr new =>
    simp only [hpc] at hc ⊢
    obtain ⟨h1, h2, h3, h4⟩ := hc
    unfold atomic_long_cmpxchg
    by_cases heq : v = curr
    · simp only [heq, if_true, ne_eq, not_true_eq_false, if_false]
      refine ⟨h3, h4, ⟨by omega, le_refl _⟩, trivial, Or.inr trivial, ?_⟩
      intro n hn; cases hn
    · simp only [heq, if_false, ne_eq, not_false_eq_true, if_true]
      refine ⟨le_refl _, hv, trivial, trivial, Or.inl trivial, ?_⟩
      intro n hn; cases hn
  | skipped a c' =>
    simp only [hpc] at hc ⊢
    refine ⟨le_refl _, hv, ?_, trivial, Or.inl trivial, ?_⟩
    · exact hc
    · intro n hn; cases hn
  | updated m =>
    simp only [hpc] at hc ⊢
    refine ⟨le_refl _, hv, ?_, trivial, Or.inl trivial, ?_⟩
    · exact hc
    · intro n hn; exact hn

/-- An element of a list is still there after another position is replaced. -/
theorem mem_set_or_eq {α : Type} (l : List α) (i : Nat) (a c c2 : α) (ha : a ∈ l)
    (hi : l[i]? = some c) : a ∈ l.set i c2 ∨ a = c := by
  obtain ⟨n, hn⟩ := List.mem_iff_getElem?.mp ha
  by_cases hni : i = n
  · right
    subst hni
    rw [hi] at hn
    exact (Option.some.inj hn).symm
  · left
    have : (l.set i c2)[n]? = some a := by
      rw [List.getElem?_set_ne hni]; exact hn
    exact List.getElem?_mem this

/-- The replaced position holds the new element. -/
theorem mem_set_self {α : Type} (l : List α) (i : Nat) (c c2 : α) (hi : l[i]? = some c) :
    c2 ∈ l.set i c2 := by
  obtain ⟨h, _⟩ := List.getElem?_eq_some.mp hi
  exact List.mem_set l i h c2

/-- One step of any schedule keeps the invariant and does not lower the
stored expiry. -/
theorem sched_step_invariant (e0 : Nat) (durations : List Nat) (s : SharedExpiry)
    (step : Nat × Nat) (hinv : expiry_invariant e0 durations s)
    (hj : ∀ d ∈ durations, step.2 + d < ULONG_RANGE / 2) :
    expiry_invariant e0 durations (sched_step s step) ∧
    s.max_boost_expires ≤ (sched_step s step).max_boost_expires := by
  obtain ⟨h1, h2, h3, h4⟩ := hinv
  unfold sched_step
  cases hget : s.callers[step.1]? with
  | none => exact ⟨⟨h1, h2, h3, h4⟩, le_refl _⟩
  | some c =>
    have hc := List.getElem?_mem hget
    obtain ⟨s1, s2, s3, s4, s5, s6⟩ :=
      caller_step_spec e0 step.2 s.max_boost_expires c h1 h2 (h3 c hc).1
        (hj _ (h3 c hc).2)
    refine ⟨⟨s2, le_trans h2 s1, ?_, ?_⟩, s1⟩
    · intro c' hc'
      rcases List.mem_or_eq_of_mem_set hc' with hm | rfl
      · exact ⟨caller_ok_mono _ _ _ _ s1 (h3 c' hm).1, (h3 c' hm).2⟩
      · exact ⟨s3, s4 ▸ (h3 c hc).2⟩
    · show (caller_step step.2 s.max_boost_expires c).1 = e0 ∨
        ∃ c' ∈ s.callers.set step.1 (caller_step step.2 s.max_boost_expires c).2,
          c'.pc = CallerPc.updated (caller_step step.2 s.max_boost_expires c).1
      rcases s5 with s5 | s5
      · rw [s5]
        rcases h4 with h4 | ⟨c0, hc0, hpc0⟩
        · exact Or.inl h4
        · right
          rcases mem_set_or_eq s.callers step.1 c0 c
              (caller_step step.2 s.max_boost_expires c).2 hc0 hget with hm | rfl
          · exact ⟨c0, hm, hpc0⟩
          · exact ⟨_, mem_set_self s.callers step.1 c0 _ hget, s6 _ hpc0⟩
      · exact Or.inr ⟨_, mem_set_self s.callers step.1 c _ hget, s5⟩

/-- A whole schedule keeps the invariant and does not lower the stored expiry. -/
theorem run_schedule_invariant (e0 : Nat) (durations : List Nat) :
    ∀ (sched : List (Nat × Nat)) (s : SharedExpiry), expiry_invariant e0 durations s →
      (∀ step ∈ sched, ∀ d ∈ durations, step.2 + d < ULONG_RANGE / 2) →
      expiry_invariant e0 durations (run_schedule s sched) ∧
      s.max_boost_expires ≤ (run_schedule s sched).max_boost_expires := by
  intro sched
  induction sched with
  | nil => intro s h _; exact ⟨h, le_refl _⟩
  | cons step rest ih =>
    intro s h hj
    obtain ⟨i1, i2⟩ := sched_step_invariant e0 durations s step h
      (hj step (List.mem_cons_self _ _))
    obtain ⟨j1, j2⟩ := ih (sched_step s step) i1
      (fun st hst => hj st (List.mem_cons_of_mem _ hst))
    exact ⟨j1, le_trans i2 j2⟩

theorem callers_start_invariant (e0 : Nat) (durations : List Nat)
    (he0 : e0 < ULONG_RANGE / 2) :
    expiry_invariant e0 durations (callers_start e0 durations) := by
  refine ⟨he0, le_refl _, ?_, Or.inl rfl⟩
  intro c hc
  unfold callers_start at hc
  obtain ⟨d, hd, rfl⟩ := List.mem_map.mp hc
  exact ⟨trivial, hd⟩

theorem run_schedule_append (s : SharedExpiry) (pre post : List (Nat × Nat)) :
    run_schedule s (pre ++ post) = run_schedule (run_schedule s pre) post := by
  unfold run_schedule
  exact List.foldl_append _ _ _ _

/-- A step of a caller running alone lowers its rank. -/
theorem caller_step_rank (jiffies v : Nat) (c : KickMaxCaller) :
    loop_rank (caller_step jiffies v c).1 (caller_step jiffies v c).2 ≤ loop_rank v c - 1 := by
  unfold caller_step loop_rank atomic_long_cmpxchg
  cases hpc : c.pc with
  | at_read => simp
  | at_compare curr new =>
    by_cases h : v = curr <;> cases ht : time_after curr new <;> simp [h, ht]
  | at_cmpxchg curr new =>
    by_cases h : v = curr <;> simp [h]
  | skipped a c' => simp [hpc]
  | updated n => simp [hpc]

theorem has_returned_of_rank_zero (v : Nat) (c : KickMaxCaller) (h : loop_rank v c = 0) :
    has_returned c = true := by
  unfold loop_rank at h
  unfold has_returned
  cases hpc : c.pc with
  | at_read => simp [hpc] at h
  | at_compare curr new => simp only [hpc] at h; split_ifs at h
  | at_cmpxchg curr new => simp only [hpc] at h; split_ifs at h
  | skipped a c' => rfl
  | updated n => rfl

theorem loop_rank_le (v : Nat) (c : KickMaxCaller) : loop_rank v c ≤ 5 := by
  unfold loop_rank
  cases c.pc <;> simp only <;> (try split_ifs) <;> omega

/-- A caller that has returned does not move any more. -/
theorem caller_step_of_returned (jiffies v : Nat) (c : KickMaxCaller)
    (h : has_returned c = true) : caller_step jiffies v c = (v, c) := by
  unfold has_returned at h
  unfold caller_step
  cases hpc : c.pc <;> simp [hpc] at h ⊢

/-- The scheduled caller after one step of the schedule. -/
theorem sched_step_at (s : SharedExpiry) (i jiffies : Nat) (c : KickMaxCaller)
    (hi : s.callers[i]? = some c) :
    (sched_step s (i, jiffies)).callers[i]? = some (caller_step jiffies s.max_boost_expires c).2 ∧
    (sched_step s (i, jiffies)).max_boost_expires
      = (caller_step jiffies s.max_boost_expires c).1 := by
  obtain ⟨h, _⟩ := List.getElem?_eq_some.mp hi
  unfold sched_step
  simp only [hi]
  exact ⟨List.getElem?_set_self h, trivial⟩

theorem sched_step_length (s : SharedExpiry) (step : Nat × Nat) :
    (sched_step s step).callers.length = s.callers.length := by
  unfold sched_step
  cases s.callers[step.1]? <;> simp

theorem run_schedule_length (sched : List (Nat × Nat)) :
    ∀ s : SharedExpiry, (run_schedule s sched).callers.length = s.callers.length := by
  induction sched with
  | nil => intro s; rfl
  | cons st rest ih =>
    intro s
    show (run_schedule (sched_step s st) rest).callers.length = _
    rw [ih, sched_step_length]

/-- A caller that has returned stays as it is through any step. -/
theorem sched_step_keeps_returned (s : SharedExpiry) (step : Nat × Nat) (i : Nat)
    (c : KickMaxCaller) (hi : s.callers[i]? = some c) (hr : has_returned c = true) :
    (sched_step s step).callers[i]? = some c := by
  by_cases hsi : step.1 = i
  · have h := (sched_step_at s i step.2 c hi).1
    rw [caller_step_of_returned _ _ _ hr] at h
    have e : step = (i, step.2) := by rw [← hsi]
    rw [e]; exact h
  · unfold sched_step
    cases hget : s.callers[step.1]? with
    | none => exact hi
    | some c0 =>
      show (s.callers.set step.1 _)[i]? = some c
      rw [List.getElem?_set_ne hsi]; exact hi

theorem run_schedule_keeps_returned (sched : List (Nat × Nat)) :
    ∀ (s : SharedExpiry) (i : Nat) (c : KickMaxCaller), s.callers[i]? = some c →
      has_returned c = true → (run_schedule s sched).callers[i]? = some c := by
  induction sched with
  | nil => intro s i c hi _; exact hi
  | cons st rest ih =>
    intro s i c hi hr
    exact ih (sched_step s st) i c (sched_step_keeps_returned s st i c hi hr) hr

/-- A caller running alone has returned after as many steps as its rank. -/
theorem solo_returns (i jiffies : Nat) :
    ∀ (n : Nat) (s : SharedExpiry) (c : KickMaxCaller), s.callers[i]? = some c →
      loop_rank s.max_boost_expires c ≤ n →
      ∃ c', (run_schedule s (List.replicate n (i, jiffies))).callers[i]? = some c' ∧
        has_returned c' = true := by
  intro n
  induction n with
  | zero =>
    intro s c hi hr
    exact ⟨c, hi, has_returned_of_rank_zero _ c (Nat.le_zero.mp hr)⟩
  | succ n ih =>
    intro s c hi hr
    obtain ⟨h1, h2⟩ := sched_step_at s i jiffies c hi
    have hrank := caller_step_rank jiffies s.max_boost_expires c
    rw [← h2] at hrank
    exact ih (sched_step s (i, jiffies)) _ h1 (by omega)

/-- Letting the callers finish one after the other, all of them return. -/
theorem finish_all_returns (jiffies : Nat) :
    ∀ (n : Nat) (s : SharedExpiry), n ≤ s.callers.length → ∀ i, i < n →
      ∃ c, (run_schedule s (finish_all jiffies n)).callers[i]? = some c ∧
        has_returned c = true := by
  intro n
  induction n with
  | zero => intro s _ i hi; omega
  | succ n ih =>
    intro s hn i hi
    show ∃ c, (run_schedule s (finish_all jiffies n ++ List.replicate 5 (n, jiffies))).callers[i]?
      = some c ∧ has_returned c = true
    rw [run_schedule_append]
    by_cases hin : i < n
    · obtain ⟨c, hc, hr⟩ := ih s (by omega) i hin
      exact ⟨c, run_schedule_keeps_returned _ _ i c hc hr, hr⟩
    · have hien : i = n := by omega
      subst hien
      have hlen : i < (run_schedule s (finish_all jiffies i)).callers.length := by
        rw [run_schedule_length]; omega
      have hget : (run_schedule s (finish_all jiffies i)).callers[i]?
          = some ((run_schedule s (finish_all jiffies i)).callers[i]) :=
        List.getElem?_eq_getElem hlen
      exact solo_returns i jiffies 5 _ _ hget (loop_rank_le _ _)

end CpuInputBoost
